import Mathlib

set_option linter.all false

/-!  A shallow embedding of the ozterm terminal-emulator core (ozterm.c).

Bytes are modelled as `Nat`; machine-integer quantities that the code keeps
non-negative (row/column counts, cursor positions, ring indices) are `Nat`,
while quantities that can legitimately be negative in C (`int` locals,
cursor-motion deltas, CSI parameters) are `Int`.  Screen buffers are total
functions from the flat index `row * column_count + column` to cells, and
C loops become `List.foldl` over `List.range`.  Host callbacks that only
produce output are modelled by an `output` byte list together with a flag
recording whether the `write_to_master` callback is installed; callbacks
with no effect on the terminal state (`refresh`, `set_character`,
`move_cursor` hooks) are omitted.  -/

/-- One grid position (`OztermCell` in ozterm.h): one character byte, one
packed color byte, and the protected attribute bit. -/
structure OztermCell where
  character : Nat
  color : Nat
  «protected» : Bool
deriving DecidableEq, Repr

/-- One screen buffer (`OztermScreen`): a row-major grid of cells (modelled as
a total function from flat index `row * column_count + column` to cells),
the per-screen cursor, and the sticky protected write attribute. -/
structure OztermScreen where
  buffer : Nat → OztermCell
  cursor_row : Nat
  cursor_column : Nat
  attr_protected : Bool

/-- Modelled from the spec: `SCROLLBACK_LINES` is defined in the repository's
missing header ozterm.h; the spec gives the example capacity 1000 rows. -/
def SCROLLBACK_LINES : Nat := 1000

/-- `TAB_WIDTH` from ozterm.c. -/
def TAB_WIDTH : Nat := 8

/-- The whole engine (`Ozterm` in ozterm.h, fields as used by ozterm.c).
The scrollback ring is a function from ring slot to a row (itself a function
from column to cell).  `write_to_master_function` records whether the host
installed the write-to-master callback, and `output` accumulates every byte
the terminal has written to the master. -/
structure Ozterm where
  screen_main : OztermScreen
  screen_alternative : OztermScreen
  alternative_active : Bool
  saved_cursor_row : Nat
  saved_cursor_column : Nat
  row_count : Nat
  column_count : Nat
  scroll_top : Nat
  scroll_bottom : Nat
  color : Nat
  scrollback : Nat → Nat → OztermCell
  scrollback_head : Nat
  scrollback_count : Nat
  scroll_offset : Nat
  write_to_master_function : Bool
  output : List Nat

/-- `terminal->screen_active`: in ozterm.c this is a pointer that always
equals `screen_alternative` when `alternative_active` and `screen_main`
otherwise (it is only assigned together with the flag). -/
def screen_active (t : Ozterm) : OztermScreen :=
  if t.alternative_active then t.screen_alternative else t.screen_main

/-- Writing back through the `screen_active` pointer. -/
def set_screen_active (t : Ozterm) (s : OztermScreen) : Ozterm :=
  if t.alternative_active then { t with screen_alternative := s }
  else { t with screen_main := s }

/-- Point update of a flat cell buffer (a C assignment `buf[i] = c`). -/
def updBuf (buf : Nat → OztermCell) (i : Nat) (c : OztermCell) : Nat → OztermCell :=
  fun j => if j = i then c else buf j

/-- The blank default-colored cell written by the clearing loops. -/
def blank_cell (color : Nat) : OztermCell :=
  { character := 32, color := color, «protected» := false }

/-- One row-clearing inner loop (`for (col = 0; col < columns; ++col)`
assigning character, color and protected of every cell of a row): used by
the scroll-region and insert/delete-line operations, which clear exposed
rows unconditionally — the protected bit included. -/
def clear_row (color cols : Nat) (b : Nat → OztermCell) (row : Nat) :
    Nat → OztermCell :=
  (List.range cols).foldl (fun b2 col => updBuf b2 (row * cols + col) (blank_cell color)) b

/-- One row-copying inner loop of the scroll-region and insert/delete-line
operations: `buf[to] = buf[from]` guarded by `!buf[to].protected`. -/
def copy_row_unprotected (cols : Nat) (b : Nat → OztermCell) (toRow fromRow : Nat) :
    Nat → OztermCell :=
  (List.range cols).foldl (fun b2 x =>
    if (b2 (toRow * cols + x)).«protected» then b2
    else updBuf b2 (toRow * cols + x) (b2 (fromRow * cols + x))) b

/-- One guarded erasing inner loop of the CSI `J`/`K` cases: assign
character and color (only) of the cells `[xStart, xStart+n)` of a row,
skipping protected cells. -/
def erase_cells (color cols : Nat) (b : Nat → OztermCell) (row xStart n : Nat) :
    Nat → OztermCell :=
  (List.range n).foldl (fun b2 j =>
    let index := row * cols + (xStart + j)
    if (b2 index).«protected» then b2
    else updBuf b2 index { b2 index with character := 32, color := color }) b

/-- One row of the DECALN fill: character and color of every cell of a row
are assigned, with no protected check and without touching the protected
bit. -/
def decaln_fill_row (color cols : Nat) (b : Nat → OztermCell) (yy : Nat) :
    Nat → OztermCell :=
  (List.range cols).foldl (fun b2 xx =>
    updBuf b2 (yy * cols + xx) { b2 (yy * cols + xx) with character := 69, color := color }) b

/-- `isdigit` restricted to the byte range (C locale). -/
def isdigitb (c : Nat) : Bool := 48 ≤ c && c ≤ 57

/-- C `isgraph` (printable, not space): 0x21..0x7E. -/
def isgraph (c : Nat) : Bool := 33 ≤ c && c ≤ 126

/-- C `isspace`: space, \t, \n, \v, \f, \r. -/
def isspace (c : Nat) : Bool := c = 32 || (9 ≤ c && c ≤ 13)

/-- C `atoi` on a byte list that (as in ozterm.c's param buffer) contains
only decimal digits and semicolons: the value of the leading digit run. -/
def atoiAux (acc : Nat) : List Nat → Nat
  | [] => acc
  | d :: rest => if isdigitb d then atoiAux (acc * 10 + (d - 48)) rest else acc

/-- `atoi`, as an `Int` (the C return type). -/
def atoi (s : List Nat) : Int := (atoiAux 0 s : Nat)

/-- Decimal digit expansion used to model `snprintf("%d", n)` for the
non-negative values the code prints. -/
def natToDigitsAux : Nat → Nat → List Nat
  | 0, _ => []
  | fuel + 1, n => if n = 0 then [] else natToDigitsAux fuel (n / 10) ++ [48 + n % 10]

/-- `snprintf("%d", n)` for `n : Nat`: the usual decimal byte string. -/
def natToDigits (n : Nat) : List Nat :=
  if n = 0 then [48] else natToDigitsAux (n + 1) n

/-- `write_to_master` (the static helper in ozterm.c): appends to the
outbound byte stream when the callback is installed and size is positive. -/
def write_to_master (t : Ozterm) (data : List Nat) : Ozterm :=
  if t.write_to_master_function ∧ 0 < data.length then { t with output := t.output ++ data }
  else t

/-- `ozterm_reset_attributes`. -/
def ozterm_reset_attributes (t : Ozterm) : Ozterm :=
  set_screen_active t { screen_active t with attr_protected := false }

/-- `ozterm_move_cursor`: clamp the requested (possibly negative) position
into `[0, row_count-1] × [0, column_count-1]`, in the same order as the C
code, then store it in the active screen. -/
def ozterm_move_cursor (t : Ozterm) (row column : Int) : Ozterm :=
  let row := if row ≥ (t.row_count : Int) then (t.row_count : Int) - 1 else row
  let row := if row < 0 then 0 else row
  let column := if column ≥ (t.column_count : Int) then (t.column_count : Int) - 1 else column
  let column := if column < 0 then 0 else column
  set_screen_active t
    { screen_active t with cursor_row := row.toNat, cursor_column := column.toNat }

/-- `ozterm_move_cursor_diff`. -/
def ozterm_move_cursor_diff (t : Ozterm) (row column : Int) : Ozterm :=
  ozterm_move_cursor t ((screen_active t).cursor_row + row)
    ((screen_active t).cursor_column + column)

/-- The clamping of the `lines` argument at the top of
`ozterm_scroll_up_region` (`lines <= 0` becomes 1, then clamp to the region
height).  Factored out so theorems can name the effective line count. -/
def scroll_region_lines (t : Ozterm) (lines0 : Int) : Int :=
  let lines := if lines0 ≤ 0 then 1 else lines0
  if lines > (t.scroll_bottom : Int) - (t.scroll_top : Int) + 1 then
    (t.scroll_bottom : Int) - (t.scroll_top : Int) + 1
  else lines

/-- `ozterm_scroll_up_region`: move each row of the scroll region up by
`lines` (skipping protected destination cells), then unconditionally clear
the `lines` exposed rows at the bottom of the region. -/
def ozterm_scroll_up_region (t : Ozterm) (lines0 : Int) : Ozterm :=
  let lines := scroll_region_lines t lines0
  let top : Int := t.scroll_top
  let bottom : Int := t.scroll_bottom
  let columns := t.column_count
  let s := screen_active t
  -- for (y = top; y <= bottom - lines; ++y): buf[y][..] = buf[y+lines][..]
  let buf := (List.range (bottom - lines + 1 - top).toNat).foldl (fun b (k : Nat) =>
    copy_row_unprotected columns b (top + (k : Int)).toNat
      (top + (k : Int) + lines).toNat) s.buffer
  -- for (row = bottom - lines + 1; row <= bottom; ++row): clear, protected included
  let buf := (List.range lines.toNat).foldl (fun b (k : Nat) =>
    clear_row t.color columns b (bottom - lines + 1 + (k : Int)).toNat) buf
  set_screen_active t { s with buffer := buf }

/-- `ozterm_scroll_up`: first copy the rows about to be evicted at
`scroll_top` into the scrollback ring (unconditionally — the code never
checks which screen is active), then scroll the region up. -/
def ozterm_scroll_up (t : Ozterm) (lines0 : Int) : Ozterm :=
  let lines := if lines0 ≤ 0 then 1 else lines0
  let t := (List.range lines.toNat).foldl (fun tm l =>
    let top := tm.scroll_top + l
    let s := screen_active tm
    -- memcpy of column_count cells into the ring slot at scrollback_head
    let line := fun x =>
      if x < tm.column_count then s.buffer (top * tm.column_count + x)
      else tm.scrollback tm.scrollback_head x
    { tm with
      scrollback := fun i => if i = tm.scrollback_head then line else tm.scrollback i,
      scrollback_head := (tm.scrollback_head + 1) % SCROLLBACK_LINES,
      scrollback_count :=
        if tm.scrollback_count < SCROLLBACK_LINES then tm.scrollback_count + 1
        else tm.scrollback_count }) t
  ozterm_scroll_up_region t lines

/-- `ozterm_scroll_down_region`: move rows down by `lines` from the bottom
of the region (skipping protected destinations), then unconditionally clear
the top `lines` rows of the region. -/
def ozterm_scroll_down_region (t : Ozterm) (lines0 : Int) : Ozterm :=
  let lines := scroll_region_lines t lines0
  let top : Int := t.scroll_top
  let bottom : Int := t.scroll_bottom
  let columns := t.column_count
  let s := screen_active t
  -- for (row = bottom; row >= top + lines; --row): buf[row][..] = buf[row-lines][..]
  let buf := (List.range (bottom - (top + lines) + 1).toNat).foldl (fun b (k : Nat) =>
    copy_row_unprotected columns b (bottom - (k : Int)).toNat
      (bottom - (k : Int) - lines).toNat) s.buffer
  -- for (row = top; row < top + lines; ++row): clear, protected included
  let buf := (List.range lines.toNat).foldl (fun b (k : Nat) =>
    clear_row t.color columns b (top + (k : Int)).toNat) buf
  set_screen_active t { s with buffer := buf }

/-- The clamp of `count` in `ozterm_insert_lines`/`ozterm_delete_lines`
(count is already known positive there). -/
def line_op_count (t : Ozterm) (from_row : Nat) (count0 : Int) : Int :=
  if count0 > (t.scroll_bottom : Int) - (from_row : Int) + 1 then
    (t.scroll_bottom : Int) - (from_row : Int) + 1
  else count0

/-- `ozterm_insert_lines`: shift rows `[from_row, bottom-count]` down
(skipping protected destinations), then unconditionally clear the `count`
rows starting at `from_row`. -/
def ozterm_insert_lines (t : Ozterm) (from_row : Nat) (count0 : Int) : Ozterm :=
  if count0 ≤ 0 then t
  else if from_row < t.scroll_top ∨ (t.scroll_bottom : Int) < (from_row : Int) then t
  else
    let count := line_op_count t from_row count0
    let top : Int := from_row
    let bottom : Int := t.scroll_bottom
    let columns := t.column_count
    let s := screen_active t
    -- for (row = bottom; row >= top + count; --row): shift down
    let buf := (List.range (bottom - (top + count) + 1).toNat).foldl (fun b (k : Nat) =>
      copy_row_unprotected columns b (bottom - (k : Int)).toNat
        (bottom - (k : Int) - count).toNat) s.buffer
    -- for (row = top; row < top + count; ++row): clear, protected included
    let buf := (List.range count.toNat).foldl (fun b (k : Nat) =>
      clear_row t.color columns b (top + (k : Int)).toNat) buf
    set_screen_active t { s with buffer := buf }

/-- `ozterm_delete_lines`: shift rows `[from_row+count, bottom]` up
(skipping protected destinations), then unconditionally clear the last
`count` rows of the region. -/
def ozterm_delete_lines (t : Ozterm) (from_row : Nat) (count0 : Int) : Ozterm :=
  if count0 ≤ 0 then t
  else if from_row < t.scroll_top ∨ (t.scroll_bottom : Int) < (from_row : Int) then t
  else
    let count := line_op_count t from_row count0
    let top : Int := from_row
    let bottom : Int := t.scroll_bottom
    let columns := t.column_count
    let s := screen_active t
    -- for (row = top; row <= bottom - count; ++row): shift up
    let buf := (List.range (bottom - count + 1 - top).toNat).foldl (fun b (k : Nat) =>
      copy_row_unprotected columns b (top + (k : Int)).toNat
        (top + (k : Int) + count).toNat) s.buffer
    -- for (row = bottom - count + 1; row <= bottom; ++row): clear, protected included
    let buf := (List.range count.toNat).foldl (fun b (k : Nat) =>
      clear_row t.color columns b (bottom - count + 1 + (k : Int)).toNat) buf
    set_screen_active t { s with buffer := buf }

/-- `ozterm_clear`: blank every cell of the active screen (protected bit
cleared too) and home the cursor. -/
def ozterm_clear (t : Ozterm) : Ozterm :=
  let s := screen_active t
  let buf := (List.range (t.row_count * t.column_count)).foldl (fun b i =>
    updBuf b i (blank_cell t.color)) s.buffer
  ozterm_move_cursor (set_screen_active t { s with buffer := buf }) 0 0

/-- `ozterm_switch_to_alt_screen`. -/
def ozterm_switch_to_alt_screen (t : Ozterm) : Ozterm :=
  ozterm_clear { t with alternative_active := true }

/-- `ozterm_restore_main_screen`. -/
def ozterm_restore_main_screen (t : Ozterm) : Ozterm :=
  { t with alternative_active := false }

/-- The inner `while (src >= x && video[src].protected) src--;` scan of
`ozterm_line_insert_characters`, with explicit fuel (the scan moves down by
one each step, so `(src - x + 1).toNat` fuel always suffices). -/
def skip_protected_down (video : Nat → OztermCell) (base : Nat) (x : Int) :
    Nat → Int → Int
  | 0, src => src
  | fuel + 1, src =>
    if x ≤ src ∧ (video (base + src.toNat)).«protected» then
      skip_protected_down video base x fuel (src - 1)
    else src

/-- The inner `while (src < columns && video[src].protected) src++;` scan of
`ozterm_line_delete_characters`, with explicit fuel. -/
def skip_protected_up (video : Nat → OztermCell) (base : Nat) (columns : Int) :
    Nat → Int → Int
  | 0, src => src
  | fuel + 1, src =>
    if src < columns ∧ (video (base + src.toNat)).«protected» then
      skip_protected_up video base columns fuel (src + 1)
    else src

/-- `ozterm_line_insert_characters` (CSI @): shift the cursor row right by
`count` from the cursor column, skipping protected destinations and
protected sources, then blank the vacated window (non-protected cells
only).  The `c` parameter is unused by the C code (it always fills with a
blank), and is kept for signature fidelity. -/
def ozterm_line_insert_characters (t : Ozterm) (c : Nat) (count0 : Int) : Ozterm :=
  let s := screen_active t
  let base := s.cursor_row * t.column_count
  let x := s.cursor_column
  let columns : Int := t.column_count
  if (columns : Int) ≤ (x : Int) then t
  else
    let count := if columns ≤ (x : Int) + count0 then columns - x else count0
    -- for (i = column_count - 1; i >= x + count; --i)
    let buf := (List.range (columns - 1 - ((x : Int) + count) + 1).toNat).foldl (fun b (k : Nat) =>
      let i : Int := columns - 1 - (k : Int)
      if (b (base + i.toNat)).«protected» then b
      else
        let src := skip_protected_down b base x ((i - count - x + 1).toNat) (i - count)
        if (x : Int) ≤ src then updBuf b (base + i.toNat) (b (base + src.toNat))
        else updBuf b (base + i.toNat)
          { character := 32, color := t.color, «protected» := false }) s.buffer
    -- for (i = 0; i < count; ++i): fill inserted area (non-protected only)
    let buf := (List.range count.toNat).foldl (fun b i =>
      if (b (base + x + i)).«protected» then b
      else updBuf b (base + x + i)
        { character := 32, color := t.color, «protected» := false }) buf
    set_screen_active t { s with buffer := buf }

/-- `ozterm_line_delete_characters` (CSI P): shift the cursor row left by
`count` from the cursor column, skipping protected destinations and
sources, then blank the vacated tail of the row (non-protected only). -/
def ozterm_line_delete_characters (t : Ozterm) (count0 : Int) : Ozterm :=
  let s := screen_active t
  let base := s.cursor_row * t.column_count
  let x := s.cursor_column
  let columns : Int := t.column_count
  if columns ≤ (x : Int) then t
  else
    let count := if columns ≤ (x : Int) + count0 then columns - x else count0
    -- for (i = x; i < column_count - count; ++i)
    let buf := (List.range (columns - count - x).toNat).foldl (fun b (k : Nat) =>
      let i : Int := (x : Int) + (k : Int)
      if (b (base + i.toNat)).«protected» then b
      else
        let src := skip_protected_up b base columns (columns - (i + count)).toNat (i + count)
        if src < columns then updBuf b (base + i.toNat) (b (base + src.toNat))
        else updBuf b (base + i.toNat)
          { character := 32, color := t.color, «protected» := false }) s.buffer
    -- for (i = column_count - count; i < column_count; ++i): clear vacated tail
    let buf := (List.range count.toNat).foldl (fun b (k : Nat) =>
      let i : Int := columns - count + (k : Int)
      if (b (base + i.toNat)).«protected» then b
      else updBuf b (base + i.toNat)
        { character := 32, color := t.color, «protected» := false }) buf
    set_screen_active t { s with buffer := buf }

/-- The printable branch of `ozterm_put_character_and_cursor`: auto-wrap
when `cursor_column >= column_count`, write the cell, advance the cursor
through `ozterm_move_cursor`. -/
def ozterm_put_printable (t : Ozterm) (c : Nat) : Ozterm :=
  let t :=
    if t.column_count ≤ (screen_active t).cursor_column then
      let s := { screen_active t with cursor_column := 0 }
      let t := set_screen_active t s
      if s.cursor_row = t.scroll_bottom then ozterm_scroll_up t 1
      else set_screen_active t { s with cursor_row := s.cursor_row + 1 }
    else t
  let s := screen_active t
  let idx := s.cursor_row * t.column_count + s.cursor_column
  let written : OztermCell :=
    { character := c, color := t.color, «protected» := s.attr_protected }
  let t := set_screen_active t { s with buffer := updBuf s.buffer idx written }
  ozterm_move_cursor t ((screen_active t).cursor_row) ((screen_active t).cursor_column + 1)

/-- `ozterm_put_character_and_cursor`: `\n`, `\r`, `\b`, `\t`, printable.
The C tab branch recursively calls `ozterm_put_character_and_cursor` with a
space, which always lands in the printable branch, so the recursion is
unfolded into `ozterm_put_printable` here. -/
def ozterm_put_character_and_cursor (t : Ozterm) (c : Nat) : Ozterm :=
  if c = 10 then
    if (screen_active t).cursor_row = t.scroll_bottom then ozterm_scroll_up t 1
    else ozterm_move_cursor t ((screen_active t).cursor_row + 1)
      ((screen_active t).cursor_column)
  else if c = 13 then ozterm_move_cursor t ((screen_active t).cursor_row) 0
  else if c = 8 then
    if 0 < (screen_active t).cursor_column then ozterm_move_cursor_diff t 0 (-1) else t
  else if c = 9 then
    let col := (screen_active t).cursor_column
    let spaces := TAB_WIDTH - col % TAB_WIDTH
    (List.range spaces).foldl (fun tm _ => ozterm_put_printable tm 32) t
  else if isgraph c || isspace c then ozterm_put_printable t c
  else t

/-- The `ParseState` enumeration of `ozterm_put_character`. -/
inductive ParseState
  | STATE_NORMAL | STATE_ESC | STATE_CSI | STATE_OSC | STATE_G0 | STATE_G1 | STATE_HASH
deriving DecidableEq, Repr

/-- The terminal together with the parser's persistent statics
(`parse_state`, `param_buf`, `seq_buf` length, `osc_buf`, `is_private`).
`seq_buf`'s contents are only ever used in diagnostics, so only its length
is tracked; `final_byte` never survives a call and needs no field. -/
structure OztermMachine where
  term : Ozterm
  parse_state : ParseState
  param_buf : List Nat
  seq_len : Nat
  osc_buf : List Nat
  is_private : Bool

/-- `p1` of the CSI parameter buffer: 1 when the buffer is empty, otherwise
`atoi` of the buffer (which stops at the first semicolon).  Note an explicit
`0` parameter yields 0, not 1. -/
def csi_p1 (param_buf : List Nat) : Int :=
  if param_buf = [] then 1 else atoi param_buf

/-- `p2` of the CSI parameter buffer: `atoi` of what follows the first
semicolon if there is one, otherwise 1. -/
def csi_p2 (param_buf : List Nat) : Int :=
  if param_buf.contains 59 then
    atoi (param_buf.drop ((param_buf.takeWhile (· ≠ 59)).length + 1))
  else 1

/-- CSI `J` (erase in display), modes 0/1/2 with 2 as the default; every
write is guarded on the destination's protected bit, and only the character
and color bytes are assigned. -/
def csi_J (t : Ozterm) (param_buf : List Nat) : Ozterm :=
  let mode : Int := if param_buf ≠ [] then atoi param_buf else 0
  let s := screen_active t
  let cy := s.cursor_row
  let cx := s.cursor_column
  let buf :=
    if mode = 0 then
      -- from cursor to end of screen
      (List.range (t.row_count - cy)).foldl (fun b k =>
        let y := cy + k
        let x_start := if y = cy then cx else 0
        erase_cells t.color t.column_count b y x_start (t.column_count - x_start)) s.buffer
    else if mode = 1 then
      -- from top to cursor
      (List.range (cy + 1)).foldl (fun b y =>
        let x_end := if y = cy then cx + 1 else t.column_count
        erase_cells t.color t.column_count b y 0 x_end) s.buffer
    else
      -- entire screen (mode 2 and the default case coincide)
      (List.range t.row_count).foldl (fun b y =>
        erase_cells t.color t.column_count b y 0 t.column_count) s.buffer
  set_screen_active t { s with buffer := buf }

/-- CSI `K` (erase in line), modes 0/1/2 with 0 as the default; writes are
guarded on the protected bit. -/
def csi_K (t : Ozterm) (param_buf : List Nat) : Ozterm :=
  let mode : Int := if param_buf ≠ [] then atoi param_buf else 0
  let s := screen_active t
  let y := s.cursor_row
  let x_start := if mode = 0 then s.cursor_column else 0
  let x_end := if mode = 1 then s.cursor_column + 1 else t.column_count
  let buf := erase_cells t.color t.column_count s.buffer y x_start (x_end - x_start)
  set_screen_active t { s with buffer := buf }

/-- The SGR parameter walk of the CSI `m` case: repeated `strtol` over the
parameter buffer with `;` separators.  The buffer only ever holds decimal
digits and semicolons, so a step always consumes at least one byte; fuel
equal to the buffer length makes the recursion structural. -/
def sgr_values_fuel : Nat → List Nat → List Int
  | 0, _ => []
  | fuel + 1, s =>
    match s with
    | [] => []
    | _ =>
      let v := atoi s
      match s.dropWhile (fun d => isdigitb d) with
      | 59 :: r => v :: sgr_values_fuel fuel r
      | _ => [v]

/-- The list of SGR parameter values read by the CSI `m` case. -/
def sgr_values (s : List Nat) : List Int := sgr_values_fuel s.length s

/-- CSI `m` (SGR): 0 resets attributes, 8 sets the protected attribute,
everything else is accepted silently. -/
def csi_m (t : Ozterm) (param_buf : List Nat) : Ozterm :=
  (sgr_values param_buf).foldl (fun tm val =>
    if val = 0 then ozterm_reset_attributes tm
    else if val = 8 then
      set_screen_active tm { screen_active tm with attr_protected := true }
    else tm) t

/-- The DECALN (`ESC # 8`) fill: every cell of the active screen gets
character `'E'` and the current color — with no protected-bit check, and
without touching the protected bit — then the cursor is homed. -/
def decaln_fill (t : Ozterm) : Ozterm :=
  let s := screen_active t
  let buf := (List.range t.row_count).foldl
    (decaln_fill_row t.color t.column_count) s.buffer
  ozterm_move_cursor (set_screen_active t { s with buffer := buf }) 0 0

/-- The CSI dispatch on a final byte (the big `switch (final_byte)` of
`ozterm_put_character`); branches that only print a diagnostic or do
nothing are identity. -/
def csi_dispatch (t : Ozterm) (param_buf : List Nat) (is_private : Bool)
    (final_byte : Nat) : Ozterm :=
  let p1 := csi_p1 param_buf
  let p2 := csi_p2 param_buf
  if final_byte = 65 then ozterm_move_cursor_diff t (-p1) 0          -- 'A'
  else if final_byte = 66 then ozterm_move_cursor_diff t p1 0       -- 'B'
  else if final_byte = 67 then ozterm_move_cursor_diff t 0 p1       -- 'C'
  else if final_byte = 68 then ozterm_move_cursor_diff t 0 (-p1)    -- 'D'
  else if final_byte = 72 ∨ final_byte = 102 then                    -- 'H' / 'f'
    ozterm_move_cursor t (if 0 < p1 then p1 - 1 else 0) (if 0 < p2 then p2 - 1 else 0)
  else if final_byte = 100 then                                      -- 'd'
    ozterm_move_cursor t (if 0 < p1 then p1 - 1 else 0) ((screen_active t).cursor_column)
  else if final_byte = 71 then                                       -- 'G'
    ozterm_move_cursor t ((screen_active t).cursor_row) (if 0 < p1 then p1 - 1 else 0)
  else if final_byte = 110 then                                      -- 'n'
    if param_buf = [54] then
      write_to_master t ([27, 91] ++ natToDigits ((screen_active t).cursor_row + 1)
        ++ [59] ++ natToDigits ((screen_active t).cursor_column + 1) ++ [82])
    else t
  else if final_byte = 74 then csi_J t param_buf                     -- 'J'
  else if final_byte = 75 then csi_K t param_buf                     -- 'K'
  else if final_byte = 109 then csi_m t param_buf                    -- 'm'
  else if final_byte = 104 then                                      -- 'h'
    if is_private ∧ param_buf = [49, 48, 52, 57] then ozterm_switch_to_alt_screen t
    else t
  else if final_byte = 108 then                                      -- 'l'
    if is_private ∧ param_buf = [49, 48, 52, 57] then ozterm_restore_main_screen t
    else t
  else if final_byte = 116 then                                      -- 't'
    if param_buf = [49, 49] then write_to_master t [27, 91, 49, 116] else t
  else if final_byte = 99 then                                       -- 'c'
    if is_private then write_to_master t [27, 91, 62, 48, 59, 48, 59, 48, 99]
    else if param_buf = [48] then write_to_master t [27, 91, 63, 49, 59, 48, 99]
    else t
  else if final_byte = 64 then                                       -- '@'
    ozterm_line_insert_characters t 32 (if 0 < p1 then p1 else 1)
  else if final_byte = 80 then                                       -- 'P'
    ozterm_line_delete_characters t (if 0 < p1 then p1 else 1)
  else if final_byte = 114 then                                      -- 'r'
    if 1 ≤ p1 ∧ 1 ≤ p2 ∧ p1 ≤ (t.row_count : Int) ∧ p2 ≤ (t.row_count : Int) then
      { t with scroll_top := (p1 - 1).toNat, scroll_bottom := (p2 - 1).toNat }
    else { t with scroll_top := 0, scroll_bottom := t.row_count - 1 }
  else if final_byte = 77 then                                       -- 'M'
    ozterm_delete_lines t (screen_active t).cursor_row (if 0 < p1 then p1 else 1)
  else if final_byte = 76 then                                       -- 'L'
    ozterm_insert_lines t (screen_active t).cursor_row (if 0 < p1 then p1 else 1)
  else if final_byte = 83 then                                       -- 'S'
    ozterm_scroll_up_region t (if 0 < p1 then p1 else 1)
  else if final_byte = 84 then                                       -- 'T'
    ozterm_scroll_down_region t (if 0 < p1 then p1 else 1)
  else t

/-- The `STATE_ESC` arm of `ozterm_put_character`. -/
def esc_step (m : OztermMachine) (c : Nat) : OztermMachine :=
  if c = 91 then       -- '['
    { m with parse_state := .STATE_CSI, param_buf := [], seq_len := 0, is_private := false }
  else if c = 93 then  -- ']'
    { m with parse_state := .STATE_OSC, osc_buf := [] }
  else if c = 40 then { m with parse_state := .STATE_G0 }   -- '('
  else if c = 41 then { m with parse_state := .STATE_G1 }   -- ')'
  else if c = 35 then { m with parse_state := .STATE_HASH } -- '#'
  else if c = 55 then  -- '7': save cursor
    { m with
      term := { m.term with
        saved_cursor_row := (screen_active m.term).cursor_row,
        saved_cursor_column := (screen_active m.term).cursor_column },
      parse_state := .STATE_NORMAL }
  else if c = 56 then  -- '8': restore cursor
    { m with
      term := ozterm_move_cursor m.term m.term.saved_cursor_row m.term.saved_cursor_column,
      parse_state := .STATE_NORMAL }
  else if c = 99 then  -- 'c': full reset
    { m with term := ozterm_move_cursor (ozterm_clear m.term) 0 0,
             parse_state := .STATE_NORMAL }
  else if c = 68 then  -- 'D': index
    { m with term := ozterm_move_cursor_diff m.term 1 0, parse_state := .STATE_NORMAL }
  else if c = 69 then  -- 'E': next line
    { m with term := ozterm_move_cursor m.term ((screen_active m.term).cursor_row + 1) 0,
             parse_state := .STATE_NORMAL }
  else if c = 77 then  -- 'M': reverse index
    { m with term := ozterm_scroll_down_region m.term 1, parse_state := .STATE_NORMAL }
  else if c = 90 then  -- 'Z': DECID reply
    { m with term := write_to_master m.term [27, 91, 63, 54, 99],
             parse_state := .STATE_NORMAL }
  else { m with parse_state := .STATE_NORMAL }  -- including the 0x5C ST case

/-- The `STATE_CSI` arm of `ozterm_put_character`: record the byte in
`seq_buf`, handle private markers, accumulate parameters, abort on a byte
outside the final range, and otherwise dispatch. -/
def csi_step (m : OztermMachine) (c : Nat) : OztermMachine :=
  let m := if m.seq_len < 63 then { m with seq_len := m.seq_len + 1 } else m
  if c = 63 ∨ c = 62 then { m with is_private := true }      -- '?' / '>'
  else if isdigitb c ∨ c = 59 then
    if m.param_buf.length < 31 then { m with param_buf := m.param_buf ++ [c] } else m
  else if c < 64 ∨ 126 < c then
    { m with parse_state := .STATE_NORMAL, param_buf := [], seq_len := 0 }
  else
    { m with term := csi_dispatch m.term m.param_buf m.is_private c,
             parse_state := .STATE_NORMAL, param_buf := [], seq_len := 0 }

/-- The `switch (parse_state)` body of `ozterm_put_character`. -/
def ozterm_put_character_switch (m : OztermMachine) (c : Nat) : OztermMachine :=
  match m.parse_state with
    | .STATE_NORMAL =>
      if c = 27 then { m with parse_state := .STATE_ESC }
      else if (32 ≤ c ∧ c ≤ 126) ∨ c = 10 ∨ c = 13 ∨ c = 8 ∨ c = 9 then
        { m with term := ozterm_put_character_and_cursor m.term c }
      else m
    | .STATE_ESC => esc_step m c
    | .STATE_OSC =>
      if c = 7 then { m with parse_state := .STATE_NORMAL }
      else if c = 27 then { m with parse_state := .STATE_ESC }
      else if m.osc_buf.length < 63 then { m with osc_buf := m.osc_buf ++ [c] }
      else m
    | .STATE_G0 => { m with parse_state := .STATE_NORMAL }
    | .STATE_G1 => { m with parse_state := .STATE_NORMAL }
    | .STATE_HASH =>
      if c = 56 then { m with term := decaln_fill m.term, parse_state := .STATE_NORMAL }
      else { m with parse_state := .STATE_NORMAL }
    | .STATE_CSI => csi_step m c

/-- The `if (terminal->scroll_offset > 0) terminal->scroll_offset = 0;`
that ends `ozterm_put_character`. -/
def snap_scroll_offset (m : OztermMachine) : OztermMachine :=
  if 0 < m.term.scroll_offset then { m with term := { m.term with scroll_offset := 0 } }
  else m

/-- `ozterm_put_character`: one byte through the parser state machine; any
byte snaps the scrollback view offset back to zero afterwards. -/
def ozterm_put_character (m : OztermMachine) (c : Nat) : OztermMachine :=
  snap_scroll_offset (ozterm_put_character_switch m c)

/-- The loop of `ozterm_put_text`: `while (*c && i < size)`, with
`remaining = size - i`.  A NUL byte stops the loop. -/
def ozterm_put_text_go : OztermMachine → List Nat → Int → OztermMachine
  | m, [], _ => m
  | m, c :: rest, remaining =>
    if c ≠ 0 ∧ 0 < remaining then
      ozterm_put_text_go (ozterm_put_character m c) rest (remaining - 1)
    else m

/-- `ozterm_put_text`. -/
def ozterm_put_text (m : OztermMachine) (text : List Nat) (size : Int) : OztermMachine :=
  ozterm_put_text_go m text size

/-- `ozterm_have_read_from_master`. -/
def ozterm_have_read_from_master (m : OztermMachine) (data : List Nat) (size : Int) :
    OztermMachine :=
  ozterm_put_text m data size

/-- Feeding a byte list to the parser one byte at a time (what
`ozterm_put_text` does on a NUL-free buffer sized to its length). -/
def ozterm_feed (m : OztermMachine) (bs : List Nat) : OztermMachine :=
  bs.foldl ozterm_put_character m

/-- The all-zero cell produced by `memset` in `ozterm_create`. -/
def zeroCell : OztermCell := { character := 0, color := 0, «protected» := false }

/-- `ozterm_create`: both screens zeroed, main active, scroll region the
full screen, color 0x0A, empty scrollback, then `ozterm_clear`; the parser
statics start at `STATE_NORMAL` with empty buffers. -/
def ozterm_create (row_count column_count : Nat) : OztermMachine :=
  let screen : OztermScreen :=
    { buffer := fun _ => zeroCell, cursor_row := 0, cursor_column := 0,
      attr_protected := false }
  let t : Ozterm :=
    { screen_main := screen, screen_alternative := screen,
      alternative_active := false,
      saved_cursor_row := 0, saved_cursor_column := 0,
      row_count := row_count, column_count := column_count,
      scroll_top := 0, scroll_bottom := row_count - 1,
      color := 0x0A,
      scrollback := fun _ _ => zeroCell,
      scrollback_head := 0, scrollback_count := 0, scroll_offset := 0,
      write_to_master_function := false, output := [] }
  { term := ozterm_clear t, parse_state := .STATE_NORMAL, param_buf := [],
    seq_len := 0, osc_buf := [], is_private := false }

/-- The modifier mask of `ozterm_send_key`, as its four bits
(`OZTERM_KEYM_LEFTSHIFT`, `OZTERM_KEYM_RIGHTSHIFT`, `OZTERM_KEYM_ALT`,
`OZTERM_KEYM_CTRL`; the numeric bit values live in the missing header
ozterm.h, so the mask is modelled as four booleans). -/
structure OztermKeyModifier where
  leftshift : Bool
  rightshift : Bool
  alt : Bool
  ctrl : Bool
deriving DecidableEq, Repr

/-- The key argument of `ozterm_send_key`: the named `OZTERM_KEY_*` codes of
the `switch`, plus `KEY_CHAR b` for any other byte (the `default` branch).
The concrete numeric codes live in the missing header ozterm.h. -/
inductive OztermKey
  | KEY_F1 | KEY_F2 | KEY_F3 | KEY_F4 | KEY_F5 | KEY_F6 | KEY_F7 | KEY_F8
  | KEY_F9 | KEY_F10 | KEY_F11 | KEY_F12
  | KEY_HOME | KEY_END | KEY_UP | KEY_DOWN | KEY_LEFT | KEY_RIGHT
  | KEY_PAGEUP | KEY_PAGEDOWN | KEY_INSERT | KEY_DELETE
  | KEY_RETURN | KEY_BACKSPACE | KEY_ESCAPE | KEY_TAB
  | KEY_CHAR (b : Nat)
deriving DecidableEq, Repr

/-- `mod_value = 1 + (shift?1:0) + (alt?2:0) + (ctrl?4:0)` as computed at
the top of `ozterm_send_key` (either shift bit counts once). -/
def mod_value (modifier : OztermKeyModifier) : Nat :=
  1 + (if modifier.leftshift || modifier.rightshift then 1 else 0)
    + (if modifier.alt then 2 else 0) + (if modifier.ctrl then 4 else 0)

/-- `write_csi_sequence`: `ESC [ final` when the code is 1 and no modifier,
`ESC [ code final` for other codes without modifier, and
`ESC [ code ; mod final` with a modifier. -/
def write_csi_sequence (code : Nat) (final : Nat) (mv : Nat) : List Nat :=
  if mv ≤ 1 then
    if code = 1 then [27, 91, final]
    else [27, 91] ++ natToDigits code ++ [final]
  else [27, 91] ++ natToDigits code ++ [59] ++ natToDigits mv ++ [final]

/-- C `toupper` on a byte. -/
def toupperb (c : Nat) : Nat := if 97 ≤ c ∧ c ≤ 122 then c - 32 else c

/-- The byte sequence built by `ozterm_send_key` before it is handed to the
write-to-master callback.  `KEY_CHAR` with exactly the CTRL modifier and a
graphic byte becomes `toupper(byte) - '@'` (as a `uint8_t`, hence mod 256). -/
def ozterm_send_key_seq (modifier : OztermKeyModifier) (key : OztermKey) : List Nat :=
  let mv := mod_value modifier
  match key with
  | .KEY_F1 => if mv = 1 then [27, 79, 80] else write_csi_sequence 1 80 mv
  | .KEY_F2 => if mv = 1 then [27, 79, 81] else write_csi_sequence 1 81 mv
  | .KEY_F3 => if mv = 1 then [27, 79, 82] else write_csi_sequence 1 82 mv
  | .KEY_F4 => if mv = 1 then [27, 79, 83] else write_csi_sequence 1 83 mv
  | .KEY_F5 => write_csi_sequence 15 126 mv
  | .KEY_F6 => write_csi_sequence 17 126 mv
  | .KEY_F7 => write_csi_sequence 18 126 mv
  | .KEY_F8 => write_csi_sequence 19 126 mv
  | .KEY_F9 => write_csi_sequence 20 126 mv
  | .KEY_F10 => write_csi_sequence 21 126 mv
  | .KEY_F11 => write_csi_sequence 23 126 mv
  | .KEY_F12 => write_csi_sequence 24 126 mv
  | .KEY_HOME => write_csi_sequence 1 72 mv
  | .KEY_END => write_csi_sequence 1 70 mv
  | .KEY_UP => write_csi_sequence 1 65 mv
  | .KEY_DOWN => write_csi_sequence 1 66 mv
  | .KEY_LEFT => write_csi_sequence 1 68 mv
  | .KEY_RIGHT => write_csi_sequence 1 67 mv
  | .KEY_PAGEUP => write_csi_sequence 5 126 mv
  | .KEY_PAGEDOWN => write_csi_sequence 6 126 mv
  | .KEY_INSERT => write_csi_sequence 2 126 mv
  | .KEY_DELETE => write_csi_sequence 3 126 mv
  | .KEY_RETURN => [13]
  | .KEY_BACKSPACE => [127]
  | .KEY_ESCAPE => [27]
  | .KEY_TAB => [9]
  | .KEY_CHAR b =>
    if modifier = ⟨false, false, false, true⟩ ∧ isgraph b then
      [(((toupperb b : Int) - 64).emod 256).toNat]
    else [b]

/-- `ozterm_send_key`: build the sequence and deliver it through the
write-to-master callback when installed. -/
def ozterm_send_key (t : Ozterm) (modifier : OztermKeyModifier) (key : OztermKey) :
    Ozterm :=
  let seq := ozterm_send_key_seq modifier key
  if t.write_to_master_function ∧ 0 < seq.length then { t with output := t.output ++ seq }
  else t

/-- The named navigation keys of claim C8. -/
def nav_keys : List OztermKey :=
  [.KEY_HOME, .KEY_END, .KEY_UP, .KEY_DOWN, .KEY_LEFT, .KEY_RIGHT,
   .KEY_PAGEUP, .KEY_PAGEDOWN, .KEY_INSERT, .KEY_DELETE]

/-- The (code, final) pair of each navigation key, from the spec's table:
HOME `1 H`, END `1 F`, UP `1 A`, DOWN `1 B`, LEFT `1 D`, RIGHT `1 C`,
PAGEUP `5 ~`, PAGEDOWN `6 ~`, INSERT `2 ~`, DELETE `3 ~`. -/
def nav_code : OztermKey → Nat × Nat
  | .KEY_HOME => (1, 72)
  | .KEY_END => (1, 70)
  | .KEY_UP => (1, 65)
  | .KEY_DOWN => (1, 66)
  | .KEY_LEFT => (1, 68)
  | .KEY_RIGHT => (1, 67)
  | .KEY_PAGEUP => (5, 126)
  | .KEY_PAGEDOWN => (6, 126)
  | .KEY_INSERT => (2, 126)
  | .KEY_DELETE => (3, 126)
  | _ => (0, 0)

/-- The byte format claimed by C8, written from the spec's words:
`ESC [ <code> <final>` (or `ESC [ <final>` when the code is 1) when
`mod_value` is 1, else `ESC [ <code> ; <mod_value> <final>`, with
`mod_value = 1 + (shift?1:0) + (alt?2:0) + (ctrl?4:0)`. -/
def claimed_nav_bytes (modifier : OztermKeyModifier) (key : OztermKey) : List Nat :=
  let mv := 1 + (if modifier.leftshift || modifier.rightshift then 1 else 0)
    + (if modifier.alt then 2 else 0) + (if modifier.ctrl then 4 else 0)
  let code := (nav_code key).1
  let fin := (nav_code key).2
  if mv = 1 then
    if code = 1 then [27, 91, fin] else [27, 91] ++ natToDigits code ++ [fin]
  else [27, 91] ++ natToDigits code ++ [59] ++ natToDigits mv ++ [fin]

/-- The CSI final bytes that only move the active cursor:
`A B C D H f d G`. -/
def motion_final_bytes : List Nat := [65, 66, 67, 68, 72, 102, 100, 71]

/-- One cursor-motion command of claim C9: carriage return, backspace,
`ESC D` (index), `ESC E` (next line), or a CSI sequence whose parameters
are digits/semicolons and whose final byte is one of `A B C D H f d G`
(arrows, CUP/HVP, row/column addressing). -/
inductive MotionCmd : List Nat → Prop
  | cr : MotionCmd [13]
  | bs : MotionCmd [8]
  | ind : MotionCmd [27, 68]
  | nel : MotionCmd [27, 69]
  | csi (ps : List Nat) (fin : Nat)
      (hps : ∀ d ∈ ps, isdigitb d = true ∨ d = 59)
      (hfin : fin ∈ motion_final_bytes) :
      MotionCmd (27 :: 91 :: (ps ++ [fin]))

/-- A 3×3 terminal whose cell (0, 0) holds a protected `'a'` (written
after SGR 8), used to exercise the protected-cell lemmas. -/
def protected_cell_demo_term : Ozterm :=
  (ozterm_feed (ozterm_create 3 3) [27, 91, 56, 109, 97]).term

/-- A 2×2 terminal whose cell (1, 0) — the bottom row of the scroll
region — holds a protected `'a'`. -/
def protected_bottom_demo_term : Ozterm :=
  (ozterm_feed (ozterm_create 2 2) [27, 91, 50, 59, 49, 72, 27, 91, 56, 109, 97]).term

/-!  Generic loop lemmas: a C `for` loop is a `List.foldl`, and these three
lemmas are the loop-invariant, establish-then-preserve, and indexed-invariant
principles used throughout. -/

/-- A property preserved by every iteration of a fold holds at the end. -/
theorem foldl_invariant {α β : Type} (step : α → β → α) (P : α → Prop) :
    ∀ (l : List β) (b : α), P b → (∀ a k, k ∈ l → P a → P (step a k)) →
      P (l.foldl step b) := by
  intro l
  induction l with
  | nil => intro b hb _; exact hb
  | cons x xs ih =>
    intro b hb h
    exact ih (step b x) (h b x (List.mem_cons_self x xs) hb)
      (fun a k hk => h a k (List.mem_cons_of_mem _ hk))

/-- If some iteration of a fold establishes a property regardless of the
incoming state, and every iteration preserves it, it holds at the end. -/
theorem foldl_establish {α β : Type} (step : α → β → α) (Q : α → Prop) :
    ∀ (l : List β) (b : α) (k0 : β), k0 ∈ l → (∀ a, Q (step a k0)) →
      (∀ a k, k ∈ l → Q a → Q (step a k)) → Q (l.foldl step b) := by
  intro l
  induction l with
  | nil => intro b k0 hk; cases hk
  | cons x xs ih =>
    intro b k0 hk hest hpres
    rcases List.mem_cons.mp hk with h | h
    · exact foldl_invariant step Q xs (step b x) (h ▸ hest b)
        (fun a k hk' => hpres a k (List.mem_cons_of_mem _ hk'))
    · exact ih (step b x) k0 h hest (fun a k hk' => hpres a k (List.mem_cons_of_mem _ hk'))

/-- Indexed loop invariant for a fold over `List.range n`. -/
theorem foldl_range_invariant {α : Type} (step : α → Nat → α) (P : Nat → α → Prop)
    (n : Nat) (b : α) (h0 : P 0 b)
    (hstep : ∀ j a, j < n → P j a → P (j + 1) (step a j)) :
    P n (List.foldl step b (List.range n)) := by
  induction n with
  | zero => simpa using h0
  | succ n ih =>
    rw [List.range_succ, List.foldl_append]
    exact hstep n _ (Nat.lt_succ_self n)
      (ih (fun j a hj ha => hstep j a (Nat.lt_succ_of_lt hj) ha))

/-- Two flat row-major indices with in-range columns and different rows
differ. -/
theorem rowcol_ne {cols r c row col : Nat} (hc : c < cols) (hcol : col < cols)
    (hr : r ≠ row) : r * cols + c ≠ row * cols + col := by
  have hpos : 0 < cols := Nat.lt_of_le_of_lt (Nat.zero_le _) hc
  intro h
  apply hr
  have h1 : (r * cols + c) / cols = r := by
    rw [Nat.mul_comm, Nat.mul_add_div hpos, Nat.div_eq_of_lt hc, Nat.add_zero]
  have h2 : (row * cols + col) / cols = row := by
    rw [Nat.mul_comm, Nat.mul_add_div hpos, Nat.div_eq_of_lt hcol, Nat.add_zero]
  rw [← h1, ← h2, h]

/-- C8 (confirmed): for every modifier mask and every named navigation key,
`ozterm_send_key` computes `mod_value = 1 + (shift?1:0) + (alt?2:0) +
(ctrl?4:0)` and, when the callback is installed, appends to the master
stream exactly `ESC [ <code> <final>` (`ESC [ <final>` when the code is 1)
for `mod_value = 1`, and `ESC [ <code> ; <mod_value> <final>` otherwise. -/
theorem C8_send_key_nav_format (t : Ozterm) (modifier : OztermKeyModifier)
    (key : OztermKey) (hk : key ∈ nav_keys)
    (hcb : t.write_to_master_function = true) :
    ozterm_send_key t modifier key =
      { t with output := t.output ++ claimed_nav_bytes modifier key } := by
  obtain ⟨ls, rs, al, ct⟩ := modifier
  have hseq : ozterm_send_key_seq ⟨ls, rs, al, ct⟩ key =
      claimed_nav_bytes ⟨ls, rs, al, ct⟩ key := by
    fin_cases hk <;> cases ls <;> cases rs <;> cases al <;> cases ct <;> rfl
  have hlen : 0 < (ozterm_send_key_seq ⟨ls, rs, al, ct⟩ key).length := by
    fin_cases hk <;> cases ls <;> cases rs <;> cases al <;> cases ct <;> decide
  simp only [ozterm_send_key]
  rw [if_pos ⟨hcb, hlen⟩, hseq]

/-- Witness for C8: UP with CTRL+SHIFT yields `"\x1b[1;6A"`. -/
theorem C8_send_key_nav_format_witness :
    (OztermKey.KEY_UP ∈ nav_keys) ∧
    ozterm_send_key
        { (ozterm_create 2 2).term with write_to_master_function := true }
        ⟨true, false, false, true⟩ .KEY_UP =
      { { (ozterm_create 2 2).term with write_to_master_function := true } with
          output := [27, 91, 49, 59, 54, 65] } := by
  constructor
  · decide
  · have h := C8_send_key_nav_format
      { (ozterm_create 2 2).term with write_to_master_function := true }
      ⟨true, false, false, true⟩ .KEY_UP (by decide) rfl
    rw [h]
    rfl

/-!  Frame lemmas: `set_screen_active` only writes one screen, and
`snap_scroll_offset` only clears the view offset.  -/

@[simp] theorem screen_active_set_screen_active (t : Ozterm) (s : OztermScreen) :
    screen_active (set_screen_active t s) = s := by
  by_cases h : t.alternative_active <;> simp [screen_active, set_screen_active, h]

@[simp] theorem set_screen_active_row_count (t : Ozterm) (s : OztermScreen) :
    (set_screen_active t s).row_count = t.row_count := by
  by_cases h : t.alternative_active <;> simp [set_screen_active, h]

@[simp] theorem set_screen_active_column_count (t : Ozterm) (s : OztermScreen) :
    (set_screen_active t s).column_count = t.column_count := by
  by_cases h : t.alternative_active <;> simp [set_screen_active, h]

@[simp] theorem set_screen_active_color (t : Ozterm) (s : OztermScreen) :
    (set_screen_active t s).color = t.color := by
  by_cases h : t.alternative_active <;> simp [set_screen_active, h]

@[simp] theorem set_screen_active_scroll_top (t : Ozterm) (s : OztermScreen) :
    (set_screen_active t s).scroll_top = t.scroll_top := by
  by_cases h : t.alternative_active <;> simp [set_screen_active, h]

@[simp] theorem set_screen_active_scroll_bottom (t : Ozterm) (s : OztermScreen) :
    (set_screen_active t s).scroll_bottom = t.scroll_bottom := by
  by_cases h : t.alternative_active <;> simp [set_screen_active, h]

@[simp] theorem set_screen_active_alternative_active (t : Ozterm) (s : OztermScreen) :
    (set_screen_active t s).alternative_active = t.alternative_active := by
  by_cases h : t.alternative_active <;> simp [set_screen_active, h]

@[simp] theorem set_screen_active_saved_cursor_row (t : Ozterm) (s : OztermScreen) :
    (set_screen_active t s).saved_cursor_row = t.saved_cursor_row := by
  by_cases h : t.alternative_active <;> simp [set_screen_active, h]

@[simp] theorem set_screen_active_saved_cursor_column (t : Ozterm) (s : OztermScreen) :
    (set_screen_active t s).saved_cursor_column = t.saved_cursor_column := by
  by_cases h : t.alternative_active <;> simp [set_screen_active, h]

@[simp] theorem set_screen_active_scrollback (t : Ozterm) (s : OztermScreen) :
    (set_screen_active t s).scrollback = t.scrollback := by
  by_cases h : t.alternative_active <;> simp [set_screen_active, h]

@[simp] theorem set_screen_active_scrollback_head (t : Ozterm) (s : OztermScreen) :
    (set_screen_active t s).scrollback_head = t.scrollback_head := by
  by_cases h : t.alternative_active <;> simp [set_screen_active, h]

@[simp] theorem set_screen_active_scrollback_count (t : Ozterm) (s : OztermScreen) :
    (set_screen_active t s).scrollback_count = t.scrollback_count := by
  by_cases h : t.alternative_active <;> simp [set_screen_active, h]

@[simp] theorem set_screen_active_scroll_offset (t : Ozterm) (s : OztermScreen) :
    (set_screen_active t s).scroll_offset = t.scroll_offset := by
  by_cases h : t.alternative_active <;> simp [set_screen_active, h]

@[simp] theorem set_screen_active_write_to_master_function (t : Ozterm) (s : OztermScreen) :
    (set_screen_active t s).write_to_master_function = t.write_to_master_function := by
  by_cases h : t.alternative_active <;> simp [set_screen_active, h]

@[simp] theorem set_screen_active_output (t : Ozterm) (s : OztermScreen) :
    (set_screen_active t s).output = t.output := by
  by_cases h : t.alternative_active <;> simp [set_screen_active, h]

/-- `snap_scroll_offset` always equals clearing the view offset (record eta
when it was already zero). -/
theorem snap_scroll_offset_eq (m : OztermMachine) :
    snap_scroll_offset m = { m with term := { m.term with scroll_offset := 0 } } := by
  unfold snap_scroll_offset
  by_cases h : 0 < m.term.scroll_offset
  · rw [if_pos h]
  · rw [if_neg h]
    have h0 : m.term.scroll_offset = 0 := by omega
    cases m with
    | mk term ps pb sl ob ip =>
      cases term
      simp_all

/-- `ozterm_move_cursor` never changes the active buffer. -/
theorem move_cursor_buffer (t : Ozterm) (r c : Int) :
    (screen_active (ozterm_move_cursor t r c)).buffer = (screen_active t).buffer := by
  unfold ozterm_move_cursor
  simp

/-- `ozterm_move_cursor t 0 0` homes the cursor (for any dimensions: with
zero rows or columns the clamp chain still lands on 0). -/
theorem move_cursor_home_cursor (t : Ozterm) :
    (screen_active (ozterm_move_cursor t 0 0)).cursor_row = 0 ∧
    (screen_active (ozterm_move_cursor t 0 0)).cursor_column = 0 := by
  unfold ozterm_move_cursor
  constructor <;>
  · simp only [screen_active_set_screen_active]
    split_ifs <;> omega


/-!  Row-level loop lemmas.  -/

/-- `decaln_fill_row` writes character `'E'` and the color into each cell
of its row. -/
theorem decaln_fill_row_char_color (color cols yy x : Nat) (b : Nat → OztermCell)
    (hx : x < cols) :
    ((decaln_fill_row color cols b yy) (yy * cols + x)).character = 69 ∧
    ((decaln_fill_row color cols b yy) (yy * cols + x)).color = color := by
  unfold decaln_fill_row
  apply foldl_establish _
    (fun bb => (bb (yy * cols + x)).character = 69 ∧ (bb (yy * cols + x)).color = color)
    (List.range cols) b x (List.mem_range.mpr hx)
  · intro a
    simp [updBuf]
  · intro a k _ hq
    simp only [updBuf]
    by_cases h : yy * cols + x = yy * cols + k <;> simp [h, hq]

/-- Every write of `decaln_fill_row` produces character `'E'` with the
color, so the property is preserved at any index. -/
theorem decaln_fill_row_pres (color cols yy idx : Nat) (b : Nat → OztermCell)
    (hq : (b idx).character = 69 ∧ (b idx).color = color) :
    ((decaln_fill_row color cols b yy) idx).character = 69 ∧
    ((decaln_fill_row color cols b yy) idx).color = color := by
  unfold decaln_fill_row
  apply foldl_invariant _
    (fun bb => (bb idx).character = 69 ∧ (bb idx).color = color)
    (List.range cols) b hq
  intro a k _ hq2
  simp only [updBuf]
  by_cases h : idx = yy * cols + k <;> simp [h, hq2]

/-- `decaln_fill_row` never changes a protected bit. -/
theorem decaln_fill_row_prot (color cols yy j : Nat) (b : Nat → OztermCell) :
    ((decaln_fill_row color cols b yy) j).«protected» = (b j).«protected» := by
  unfold decaln_fill_row
  apply foldl_invariant _
    (fun bb => (bb j).«protected» = (b j).«protected») (List.range cols) b rfl
  intro a k _ hp
  by_cases h : j = yy * cols + k
  · subst h
    simpa [updBuf] using hp
  · simp only [updBuf]
    rw [if_neg h]
    exact hp

/-- The DECALN fill writes character `'E'` and the current color into every
in-range cell and touches nothing else of the cell. -/
theorem decaln_fill_cell (t : Ozterm) (y x : Nat) (hy : y < t.row_count)
    (hx : x < t.column_count) :
    (screen_active (decaln_fill t)).buffer (y * t.column_count + x) =
      { (screen_active t).buffer (y * t.column_count + x) with
          character := 69, color := t.color } := by
  unfold decaln_fill
  rw [move_cursor_buffer]
  simp only [screen_active_set_screen_active]
  have hQ : (((List.range t.row_count).foldl (decaln_fill_row t.color t.column_count)
        ((screen_active t).buffer)) (y * t.column_count + x)).character = 69 ∧
      (((List.range t.row_count).foldl (decaln_fill_row t.color t.column_count)
        ((screen_active t).buffer)) (y * t.column_count + x)).color = t.color := by
    apply foldl_establish _
      (fun bb => (bb (y * t.column_count + x)).character = 69 ∧
        (bb (y * t.column_count + x)).color = t.color)
      (List.range t.row_count) ((screen_active t).buffer) y (List.mem_range.mpr hy)
    · intro a
      exact decaln_fill_row_char_color t.color t.column_count y x a hx
    · intro a k _ hq
      exact decaln_fill_row_pres t.color t.column_count k _ a hq
  have hP : (((List.range t.row_count).foldl (decaln_fill_row t.color t.column_count)
        ((screen_active t).buffer)) (y * t.column_count + x)).«protected» =
      ((screen_active t).buffer (y * t.column_count + x)).«protected» := by
    apply foldl_invariant _
      (fun bb => (bb (y * t.column_count + x)).«protected» =
        ((screen_active t).buffer (y * t.column_count + x)).«protected»)
      (List.range t.row_count) ((screen_active t).buffer) rfl
    intro a k _ hp
    rw [decaln_fill_row_prot]
    exact hp
  rcases hQ with ⟨hchar, hcolor⟩
  cases hcell : ((List.range t.row_count).foldl (decaln_fill_row t.color t.column_count)
      ((screen_active t).buffer)) (y * t.column_count + x) with
  | mk ch co pr =>
    rw [hcell] at hchar hcolor hP
    simp only at hchar hcolor hP
    simp [hchar, hcolor, ← hP]

/-- The DECALN fill homes the cursor. -/
theorem decaln_fill_cursor (t : Ozterm) :
    (screen_active (decaln_fill t)).cursor_row = 0 ∧
    (screen_active (decaln_fill t)).cursor_column = 0 := by
  unfold decaln_fill
  exact move_cursor_home_cursor _

@[simp] theorem screen_active_scroll_offset_zero (t : Ozterm) :
    screen_active { t with scroll_offset := 0 } = screen_active t := rfl

/-- Feeding `ESC` in the normal state only enters the escape state. -/
theorem put_character_normal_esc (m : OztermMachine)
    (h : m.parse_state = ParseState.STATE_NORMAL) :
    ozterm_put_character m 27 =
      { m with parse_state := .STATE_ESC, term := { m.term with scroll_offset := 0 } } := by
  unfold ozterm_put_character ozterm_put_character_switch
  rw [h, snap_scroll_offset_eq]
  rfl

/-- Feeding `#` in the escape state enters the DEC-special state. -/
theorem put_character_esc_hash (m : OztermMachine)
    (h : m.parse_state = ParseState.STATE_ESC) :
    ozterm_put_character m 35 =
      { m with parse_state := .STATE_HASH, term := { m.term with scroll_offset := 0 } } := by
  unfold ozterm_put_character ozterm_put_character_switch
  rw [h]
  simp [esc_step, snap_scroll_offset_eq]

/-- Feeding `8` in the DEC-special state performs the DECALN fill. -/
theorem put_character_hash_decaln (m : OztermMachine)
    (h : m.parse_state = ParseState.STATE_HASH) :
    ozterm_put_character m 56 =
      { m with term := { decaln_fill m.term with scroll_offset := 0 },
               parse_state := .STATE_NORMAL } := by
  unfold ozterm_put_character ozterm_put_character_switch
  rw [h, snap_scroll_offset_eq]
  rfl

/-- C10 (confirmed): after feeding `ESC # 8` from the normal parse state,
every cell of the active screen has character `'E'` and the current default
color — protected cells included — while every protected bit is unchanged,
and the cursor is at (0, 0). -/
theorem C10_decaln_fills_screen (m : OztermMachine)
    (h : m.parse_state = ParseState.STATE_NORMAL) :
    (∀ y x, y < m.term.row_count → x < m.term.column_count →
      (screen_active (ozterm_feed m [27, 35, 56]).term).buffer
          (y * m.term.column_count + x) =
        { (screen_active m.term).buffer (y * m.term.column_count + x) with
            character := 69, color := m.term.color }) ∧
    (screen_active (ozterm_feed m [27, 35, 56]).term).cursor_row = 0 ∧
    (screen_active (ozterm_feed m [27, 35, 56]).term).cursor_column = 0 := by
  have e : ozterm_feed m [27, 35, 56] =
      ozterm_put_character (ozterm_put_character (ozterm_put_character m 27) 35) 56 := rfl
  rw [e, put_character_normal_esc m h, put_character_esc_hash _ rfl,
    put_character_hash_decaln _ rfl]
  refine ⟨?_, ?_, ?_⟩
  · intro y x hy hx
    have := decaln_fill_cell { m.term with scroll_offset := 0 } y x hy hx
    simpa using this
  · simpa using (decaln_fill_cursor { m.term with scroll_offset := 0 }).1
  · simpa using (decaln_fill_cursor { m.term with scroll_offset := 0 }).2

/-- Witness for C10 on a concrete 2×2 terminal holding an `'a'` at (0, 0):
cell (0, 1) becomes `'E'` in the default color and the cursor is homed. -/
theorem C10_decaln_fills_screen_witness :
    (ozterm_feed (ozterm_create 2 2) [97]).parse_state = ParseState.STATE_NORMAL ∧
    (screen_active (ozterm_feed (ozterm_feed (ozterm_create 2 2) [97])
        [27, 35, 56]).term).buffer
        (0 * (ozterm_feed (ozterm_create 2 2) [97]).term.column_count + 1) =
      { (screen_active (ozterm_feed (ozterm_create 2 2) [97]).term).buffer
          (0 * (ozterm_feed (ozterm_create 2 2) [97]).term.column_count + 1) with
          character := 69,
          color := (ozterm_feed (ozterm_create 2 2) [97]).term.color } := by
  refine ⟨rfl, ?_⟩
  exact (C10_decaln_fills_screen (ozterm_feed (ozterm_create 2 2) [97]) rfl).1 0 1
    (by decide) (by decide)

/-- Feeding `[` in the escape state resets the per-sequence scratch and
enters the CSI state. -/
theorem put_character_esc_csi (m : OztermMachine)
    (h : m.parse_state = ParseState.STATE_ESC) :
    ozterm_put_character m 91 =
      { m with parse_state := .STATE_CSI, param_buf := [], seq_len := 0,
               is_private := false, term := { m.term with scroll_offset := 0 } } := by
  unfold ozterm_put_character ozterm_put_character_switch
  rw [h]
  unfold esc_step
  rw [if_pos rfl, snap_scroll_offset_eq]

/-- A final byte in the CSI state dispatches and resets the scratch. -/
theorem csi_step_final (m : OztermMachine) (c : Nat)
    (hc2 : ¬(c = 63 ∨ c = 62)) (hc3 : ¬(isdigitb c ∨ c = 59))
    (hrange : ¬(c < 64 ∨ 126 < c)) :
    csi_step m c =
      { m with term := csi_dispatch m.term m.param_buf m.is_private c,
               parse_state := .STATE_NORMAL, param_buf := [], seq_len := 0 } := by
  unfold csi_step
  by_cases h63 : m.seq_len < 63 <;>
    simp only [h63, if_true, if_false, ite_true, ite_false] <;>
    rw [if_neg hc2, if_neg hc3, if_neg hrange]

/-- Feeding a final byte while in the CSI state. -/
theorem put_character_csi_final (m : OztermMachine) (c : Nat)
    (h : m.parse_state = ParseState.STATE_CSI)
    (hc2 : ¬(c = 63 ∨ c = 62)) (hc3 : ¬(isdigitb c ∨ c = 59))
    (hrange : ¬(c < 64 ∨ 126 < c)) :
    ozterm_put_character m c =
      { m with term := { csi_dispatch m.term m.param_buf m.is_private c with
                           scroll_offset := 0 },
               parse_state := .STATE_NORMAL, param_buf := [], seq_len := 0 } := by
  unfold ozterm_put_character ozterm_put_character_switch
  rw [h, csi_step_final m c hc2 hc3 hrange, snap_scroll_offset_eq]

/-- A parameter byte (digit or `;`) in the CSI state only grows the scratch
buffers (subject to their caps) and leaves the terminal untouched. -/
theorem csi_step_param (m : OztermMachine) (c : Nat)
    (hc : isdigitb c ∨ c = 59) (hc2 : ¬(c = 63 ∨ c = 62)) :
    csi_step m c =
      { m with
        seq_len := if m.seq_len < 63 then m.seq_len + 1 else m.seq_len,
        param_buf := if m.param_buf.length < 31 then m.param_buf ++ [c]
          else m.param_buf } := by
  unfold csi_step
  by_cases h63 : m.seq_len < 63 <;> by_cases h31 : m.param_buf.length < 31 <;>
    simp only [h63, h31, if_true, if_false, ite_true, ite_false] <;>
    rw [if_neg hc2, if_pos hc]

/-- Feeding a parameter byte while in the CSI state. -/
theorem put_character_csi_param (m : OztermMachine) (c : Nat)
    (h : m.parse_state = ParseState.STATE_CSI)
    (hc : isdigitb c ∨ c = 59) (hc2 : ¬(c = 63 ∨ c = 62)) :
    ozterm_put_character m c =
      { m with
        term := { m.term with scroll_offset := 0 },
        seq_len := if m.seq_len < 63 then m.seq_len + 1 else m.seq_len,
        param_buf := if m.param_buf.length < 31 then m.param_buf ++ [c]
          else m.param_buf } := by
  unfold ozterm_put_character ozterm_put_character_switch
  rw [h, csi_step_param m c hc hc2, snap_scroll_offset_eq, h]

/-- The `r` (DECSTBM) branch of the CSI dispatch. -/
theorem csi_dispatch_r (t : Ozterm) (pb : List Nat) (ip : Bool) :
    csi_dispatch t pb ip 114 =
      (if 1 ≤ csi_p1 pb ∧ 1 ≤ csi_p2 pb ∧ csi_p1 pb ≤ (t.row_count : Int) ∧
          csi_p2 pb ≤ (t.row_count : Int) then
        { t with scroll_top := (csi_p1 pb - 1).toNat,
                 scroll_bottom := (csi_p2 pb - 1).toNat }
      else { t with scroll_top := 0, scroll_bottom := t.row_count - 1 }) := by
  unfold csi_dispatch
  norm_num

/-- C5 (corrected): after a CSI `r` final byte, both scroll bounds always
lie in `[0, rows)`; the region is set to `[p1-1, p2-1]` exactly when both
parameters are in `[1, rows]`, and reset to the full screen otherwise.  The
code never compares `p1` with `p2`, so `scroll_top ≤ scroll_bottom` is NOT
restored (see the counterexample). -/
theorem C5_decstbm_region (m : OztermMachine)
    (h : m.parse_state = ParseState.STATE_CSI)
    (hrows : 1 ≤ m.term.row_count) :
    ((ozterm_put_character m 114).term.scroll_top < m.term.row_count ∧
     (ozterm_put_character m 114).term.scroll_bottom < m.term.row_count) ∧
    ((1 ≤ csi_p1 m.param_buf ∧ 1 ≤ csi_p2 m.param_buf ∧
        csi_p1 m.param_buf ≤ (m.term.row_count : Int) ∧
        csi_p2 m.param_buf ≤ (m.term.row_count : Int)) →
      (ozterm_put_character m 114).term.scroll_top = (csi_p1 m.param_buf - 1).toNat ∧
      (ozterm_put_character m 114).term.scroll_bottom = (csi_p2 m.param_buf - 1).toNat) ∧
    (¬(1 ≤ csi_p1 m.param_buf ∧ 1 ≤ csi_p2 m.param_buf ∧
        csi_p1 m.param_buf ≤ (m.term.row_count : Int) ∧
        csi_p2 m.param_buf ≤ (m.term.row_count : Int)) →
      (ozterm_put_character m 114).term.scroll_top = 0 ∧
      (ozterm_put_character m 114).term.scroll_bottom = m.term.row_count - 1) := by
  rw [put_character_csi_final m 114 h (by decide) (by decide) (by decide), csi_dispatch_r]
  by_cases hin : 1 ≤ csi_p1 m.param_buf ∧ 1 ≤ csi_p2 m.param_buf ∧
      csi_p1 m.param_buf ≤ (m.term.row_count : Int) ∧
      csi_p2 m.param_buf ≤ (m.term.row_count : Int)
  · rw [if_pos hin]
    obtain ⟨h1, h2, h3, h4⟩ := hin
    refine ⟨⟨?_, ?_⟩, fun _ => ⟨rfl, rfl⟩, fun hn => absurd ⟨h1, h2, h3, h4⟩ hn⟩
    · show (csi_p1 m.param_buf - 1).toNat < m.term.row_count
      omega
    · show (csi_p2 m.param_buf - 1).toNat < m.term.row_count
      omega
  · rw [if_neg hin]
    refine ⟨⟨?_, ?_⟩, fun hy => absurd hy hin, fun _ => ⟨rfl, rfl⟩⟩
    · show (0 : Nat) < m.term.row_count
      omega
    · show m.term.row_count - 1 < m.term.row_count
      omega

/-- Witness for C5: CSI `r` with no parameters on a fresh 5×5 terminal. -/
theorem C5_decstbm_region_witness :
    ((ozterm_feed (ozterm_create 5 5) [27, 91]).parse_state =
      ParseState.STATE_CSI ∧
     1 ≤ (ozterm_feed (ozterm_create 5 5) [27, 91]).term.row_count) ∧
    ((ozterm_put_character (ozterm_feed (ozterm_create 5 5) [27, 91]) 114).term.scroll_top <
        (ozterm_feed (ozterm_create 5 5) [27, 91]).term.row_count ∧
     (ozterm_put_character (ozterm_feed (ozterm_create 5 5) [27, 91]) 114).term.scroll_bottom <
        (ozterm_feed (ozterm_create 5 5) [27, 91]).term.row_count) :=
  ⟨⟨rfl, by decide⟩,
    (C5_decstbm_region (ozterm_feed (ozterm_create 5 5) [27, 91]) rfl (by decide)).1⟩

/-- Counterexample to C5 as stated: `ESC [ 5 ; 2 r` on a 5-row terminal is
accepted (both parameters are in range) and leaves
`scroll_top = 4 > 1 = scroll_bottom`. -/
theorem C5_counterexample :
    (ozterm_feed (ozterm_create 5 5) [27, 91, 53, 59, 50, 114]).term.scroll_top = 4 ∧
    (ozterm_feed (ozterm_create 5 5) [27, 91, 53, 59, 50, 114]).term.scroll_bottom = 1 ∧
    ¬((ozterm_feed (ozterm_create 5 5) [27, 91, 53, 59, 50, 114]).term.scroll_top ≤
        (ozterm_feed (ozterm_create 5 5) [27, 91, 53, 59, 50, 114]).term.scroll_bottom) := by
  refine ⟨rfl, rfl, by decide⟩

/-- The `A` (cursor up) branch of the CSI dispatch. -/
theorem csi_dispatch_A (t : Ozterm) (pb : List Nat) (ip : Bool) :
    csi_dispatch t pb ip 65 = ozterm_move_cursor_diff t (-(csi_p1 pb)) 0 := by
  unfold csi_dispatch
  norm_num

/-- C6 (corrected): a CSI `A` final byte moves the cursor up by exactly
`csi_p1` of the parameter buffer, where `p1` is 1 when the buffer is ABSENT
(empty) but `atoi` of the buffer otherwise — so an explicit `0` parameter
moves the cursor by 0, not by 1 as the claim states (the default-to-1 on
zero only happens at use sites such as `@`/`P`/`L`/`M`/`S`/`T`). -/
theorem C6_csi_A_parameter (m : OztermMachine)
    (h : m.parse_state = ParseState.STATE_CSI) :
    (ozterm_put_character m 65).term =
      { ozterm_move_cursor_diff m.term (-(csi_p1 m.param_buf)) 0 with
          scroll_offset := 0 } ∧
    csi_p1 [] = 1 ∧ csi_p1 [48] = 0 := by
  rw [put_character_csi_final m 65 h (by decide) (by decide) (by decide), csi_dispatch_A]
  exact ⟨rfl, by decide, by decide⟩

/-- Witness for C6's amended statement, on a machine holding parameter
`"0"` in the CSI state. -/
theorem C6_csi_A_parameter_witness :
    (ozterm_feed (ozterm_create 5 5) [27, 91, 48]).parse_state =
      ParseState.STATE_CSI ∧
    ((ozterm_put_character (ozterm_feed (ozterm_create 5 5) [27, 91, 48]) 65).term =
      { ozterm_move_cursor_diff (ozterm_feed (ozterm_create 5 5) [27, 91, 48]).term
          (-(csi_p1 (ozterm_feed (ozterm_create 5 5) [27, 91, 48]).param_buf)) 0 with
          scroll_offset := 0 } ∧
     csi_p1 [] = 1 ∧ csi_p1 [48] = 0) :=
  ⟨rfl, C6_csi_A_parameter (ozterm_feed (ozterm_create 5 5) [27, 91, 48]) rfl⟩

/-- Counterexample to C6 as stated: with the cursor on row 2 of a fresh 5×5
terminal, `ESC [ 0 A` leaves the cursor on row 2, while `ESC [ A` (no
parameter) moves it to row 1 — a zero parameter does not default to 1. -/
theorem C6_counterexample :
    (screen_active (ozterm_feed (ozterm_create 5 5)
        [27, 91, 51, 59, 49, 72, 27, 91, 48, 65]).term).cursor_row = 2 ∧
    (screen_active (ozterm_feed (ozterm_create 5 5)
        [27, 91, 51, 59, 49, 72, 27, 91, 65]).term).cursor_row = 1 :=
  ⟨rfl, rfl⟩

/-- `write_to_master` with the callback installed appends exactly its
payload. -/
theorem write_to_master_output (t : Ozterm) (data : List Nat)
    (hcb : t.write_to_master_function = true) (hlen : 0 < data.length) :
    (write_to_master t data).output = t.output ++ data := by
  unfold write_to_master
  rw [if_pos ⟨hcb, hlen⟩]

/-- The `n` branch of the CSI dispatch with parameter `"6"`: the DSR
cursor-position reply. -/
theorem csi_dispatch_n6 (t : Ozterm) (ip : Bool) :
    csi_dispatch t [54] ip 110 =
      write_to_master t ([27, 91] ++ natToDigits ((screen_active t).cursor_row + 1)
        ++ [59] ++ natToDigits ((screen_active t).cursor_column + 1) ++ [82]) := by
  unfold csi_dispatch
  norm_num

/-- C7 (confirmed): from the normal parse state with the write-to-master
callback installed, feeding `ESC [ 6 n` appends to the outbound stream
exactly one reply `ESC [ <row+1> ; <col+1> R` (decimal), for the cursor
position at the time of the request. -/
theorem C7_dsr_cursor_report (m : OztermMachine)
    (h : m.parse_state = ParseState.STATE_NORMAL)
    (hcb : m.term.write_to_master_function = true) :
    (ozterm_feed m [27, 91, 54, 110]).term.output =
      m.term.output ++ ([27, 91] ++ natToDigits ((screen_active m.term).cursor_row + 1)
        ++ [59] ++ natToDigits ((screen_active m.term).cursor_column + 1) ++ [82]) := by
  have e : ozterm_feed m [27, 91, 54, 110] =
      ozterm_put_character (ozterm_put_character (ozterm_put_character
        (ozterm_put_character m 27) 91) 54) 110 := rfl
  rw [e, put_character_normal_esc m h, put_character_esc_csi _ rfl,
    put_character_csi_param _ 54 rfl (by decide) (by decide)]
  norm_num
  rw [put_character_csi_final _ 110 rfl (by decide) (by decide) (by decide)]
  show (csi_dispatch { m.term with scroll_offset := 0 } [54] false 110).output = _
  rw [csi_dispatch_n6]
  rw [write_to_master_output { m.term with scroll_offset := 0 } _ hcb (by simp)]
  simp

/-- Witness for C7: at cursor (2, 3) on a fresh 5×6 terminal with the
callback installed, the reply is `"\x1b[3;4R"`. -/
theorem C7_dsr_cursor_report_witness :
    ((ozterm_feed { (ozterm_create 5 6) with
        term := { (ozterm_create 5 6).term with write_to_master_function := true } }
        [27, 91, 51, 59, 52, 72]).parse_state = ParseState.STATE_NORMAL ∧
     (ozterm_feed { (ozterm_create 5 6) with
        term := { (ozterm_create 5 6).term with write_to_master_function := true } }
        [27, 91, 51, 59, 52, 72]).term.write_to_master_function = true) ∧
    (ozterm_feed (ozterm_feed { (ozterm_create 5 6) with
        term := { (ozterm_create 5 6).term with write_to_master_function := true } }
        [27, 91, 51, 59, 52, 72]) [27, 91, 54, 110]).term.output =
      [27, 91, 51, 59, 52, 82] := by
  refine ⟨⟨rfl, rfl⟩, ?_⟩
  rw [C7_dsr_cursor_report _ rfl rfl]
  rfl

/-- C4 (corrected): a single `ozterm_put_text` call processes, strictly in
order and one byte at a time, exactly the longest NUL-free prefix of the
first `size` bytes of the buffer.  Each processed byte goes through
`ozterm_put_character` just as if fed alone — but a 0x00 byte stops the
loop, so bytes after a NUL are NOT processed (see the counterexample). -/
theorem C4_put_text_is_feed_of_nul_free_prefix :
    ∀ (text : List Nat) (m : OztermMachine) (size : Int),
      ozterm_put_text m text size =
        ozterm_feed m ((text.take size.toNat).takeWhile (fun c => c ≠ 0)) := by
  intro text
  induction text with
  | nil =>
    intro m size
    simp [ozterm_put_text, ozterm_put_text_go, ozterm_feed]
  | cons c rest ih =>
    intro m size
    by_cases hsz : 0 < size
    · have htn : size.toNat = (size - 1).toNat + 1 := by omega
      rw [htn]
      by_cases hc : c = 0
      · subst hc
        simp [ozterm_put_text, ozterm_put_text_go, ozterm_feed, List.takeWhile]
      · have hl : ozterm_put_text m (c :: rest) size =
            ozterm_put_text (ozterm_put_character m c) rest (size - 1) := by
          simp only [ozterm_put_text, ozterm_put_text_go]
          rw [if_pos ⟨hc, hsz⟩]
        rw [hl, ih (ozterm_put_character m c) (size - 1)]
        have hs : (List.take ((size - 1).toNat + 1) (c :: rest)).takeWhile
            (fun c => c ≠ 0) = c :: (List.take (size - 1).toNat rest).takeWhile
            (fun c => c ≠ 0) := by
          simp [List.take, List.takeWhile, hc]
        rw [hs]
        rfl
    · have htn : size.toNat = 0 := by omega
      rw [htn]
      have hl : ozterm_put_text m (c :: rest) size = m := by
        simp only [ozterm_put_text, ozterm_put_text_go]
        rw [if_neg (by tauto)]
      rw [hl]
      simp [ozterm_feed]

/-- Counterexample to C4 as stated: feeding the 3-byte buffer
`"a\x00b"` to a fresh 4×4 terminal leaves cell (0, 1) blank and the cursor
at column 1 — the `'b'` after the NUL is never processed, although the
claim says a 0x00 byte does not prevent later bytes from being processed. -/
theorem C4_counterexample :
    ((screen_active (ozterm_put_text (ozterm_create 4 4) [97, 0, 98] 3).term).buffer 1).character = 32 ∧
    (screen_active (ozterm_put_text (ozterm_create 4 4) [97, 0, 98] 3).term).cursor_column = 1 ∧
    ozterm_put_text (ozterm_create 4 4) [97, 0, 98] 3 =
      ozterm_feed (ozterm_create 4 4) [97] :=
  ⟨rfl, rfl, C4_put_text_is_feed_of_nul_free_prefix [97, 0, 98] (ozterm_create 4 4) 3⟩

/-- C3 (code bug): `ozterm_move_cursor` clamps the column to
`column_count - 1`, so after a printable write at the last column the
cursor sits at `cols - 1`, never at the pending-wrap position `cols`, and
the auto-wrap branch of `ozterm_put_character_and_cursor` is unreachable.
On a fresh 2×2 terminal, after `"ab"` the cursor column is 1 (not 2), and
the `'c'` of `"abc"` overwrites cell (0, 1) instead of wrapping to (1, 0). -/
theorem C3_no_pending_wrap_eval :
    (screen_active (ozterm_feed (ozterm_create 2 2) [97, 98]).term).cursor_column = 1 ∧
    (screen_active (ozterm_feed (ozterm_create 2 2) [97, 98, 99]).term).cursor_row = 0 ∧
    (screen_active (ozterm_feed (ozterm_create 2 2) [97, 98, 99]).term).cursor_column = 1 ∧
    ((screen_active (ozterm_feed (ozterm_create 2 2) [97, 98, 99]).term).buffer 1).character = 99 ∧
    ((screen_active (ozterm_feed (ozterm_create 2 2) [97, 98, 99]).term).buffer 2).character = 32 :=
  ⟨rfl, rfl, rfl, rfl, rfl⟩

/-- Feeding a concatenation is feeding the pieces in order. -/
theorem ozterm_feed_append (m : OztermMachine) (a b : List Nat) :
    ozterm_feed m (a ++ b) = ozterm_feed (ozterm_feed m a) b :=
  List.foldl_append _ _ _ _

/-- `ozterm_move_cursor` leaves the saved cursor and the dimensions
alone. -/
theorem move_cursor_frame (t : Ozterm) (r c : Int) :
    (ozterm_move_cursor t r c).saved_cursor_row = t.saved_cursor_row ∧
    (ozterm_move_cursor t r c).saved_cursor_column = t.saved_cursor_column ∧
    (ozterm_move_cursor t r c).row_count = t.row_count ∧
    (ozterm_move_cursor t r c).column_count = t.column_count := by
  unfold ozterm_move_cursor
  exact ⟨by simp, by simp, by simp, by simp⟩

/-- `ozterm_move_cursor_diff` leaves the saved cursor and dimensions
alone. -/
theorem move_cursor_diff_frame (t : Ozterm) (r c : Int) :
    (ozterm_move_cursor_diff t r c).saved_cursor_row = t.saved_cursor_row ∧
    (ozterm_move_cursor_diff t r c).saved_cursor_column = t.saved_cursor_column ∧
    (ozterm_move_cursor_diff t r c).row_count = t.row_count ∧
    (ozterm_move_cursor_diff t r c).column_count = t.column_count := by
  unfold ozterm_move_cursor_diff
  exact move_cursor_frame _ _ _

/-- Moving to an in-range position is exact (no clamping). -/
theorem move_cursor_exact (t : Ozterm) (r c : Nat)
    (hr : r < t.row_count) (hc : c < t.column_count) :
    (screen_active (ozterm_move_cursor t r c)).cursor_row = r ∧
    (screen_active (ozterm_move_cursor t r c)).cursor_column = c := by
  unfold ozterm_move_cursor
  constructor <;>
  · simp only [screen_active_set_screen_active]
    split_ifs <;> omega

/-- `\r` and `\b` only move the cursor. -/
theorem pcc_cr_bs_frame (t : Ozterm) (c : Nat) (hc : c = 13 ∨ c = 8) :
    (ozterm_put_character_and_cursor t c).saved_cursor_row = t.saved_cursor_row ∧
    (ozterm_put_character_and_cursor t c).saved_cursor_column = t.saved_cursor_column ∧
    (ozterm_put_character_and_cursor t c).row_count = t.row_count ∧
    (ozterm_put_character_and_cursor t c).column_count = t.column_count := by
  rcases hc with rfl | rfl
  · unfold ozterm_put_character_and_cursor
    norm_num
    exact move_cursor_frame _ _ _
  · unfold ozterm_put_character_and_cursor
    norm_num
    split_ifs
    · exact move_cursor_diff_frame _ _ _
    · exact ⟨rfl, rfl, rfl, rfl⟩

/-- A printable or control byte in the normal state goes through
`ozterm_put_character_and_cursor` and stays in the normal state. -/
theorem put_character_normal_byte (m : OztermMachine)
    (h : m.parse_state = ParseState.STATE_NORMAL) (c : Nat)
    (hc27 : ¬c = 27)
    (hcr : (32 ≤ c ∧ c ≤ 126) ∨ c = 10 ∨ c = 13 ∨ c = 8 ∨ c = 9) :
    ozterm_put_character m c =
      { m with term := { ozterm_put_character_and_cursor m.term c with
          scroll_offset := 0 } } := by
  unfold ozterm_put_character ozterm_put_character_switch
  rw [h, if_neg hc27, if_pos hcr, snap_scroll_offset_eq]

/-- `ESC 7` records the active cursor into the saved pair. -/
theorem put_character_esc_7 (m : OztermMachine)
    (h : m.parse_state = ParseState.STATE_ESC) :
    ozterm_put_character m 55 =
      { m with
        term := { m.term with
          saved_cursor_row := (screen_active m.term).cursor_row,
          saved_cursor_column := (screen_active m.term).cursor_column,
          scroll_offset := 0 },
        parse_state := .STATE_NORMAL } := by
  unfold ozterm_put_character ozterm_put_character_switch esc_step
  rw [h]
  norm_num [snap_scroll_offset_eq]

/-- `ESC 8` moves the cursor to the saved pair. -/
theorem put_character_esc_8 (m : OztermMachine)
    (h : m.parse_state = ParseState.STATE_ESC) :
    ozterm_put_character m 56 =
      { m with
        term := { ozterm_move_cursor m.term m.term.saved_cursor_row
          m.term.saved_cursor_column with scroll_offset := 0 },
        parse_state := .STATE_NORMAL } := by
  unfold ozterm_put_character ozterm_put_character_switch esc_step
  rw [h]
  norm_num [snap_scroll_offset_eq]

/-- `ESC D` (index) only moves the cursor. -/
theorem put_character_esc_D (m : OztermMachine)
    (h : m.parse_state = ParseState.STATE_ESC) :
    ozterm_put_character m 68 =
      { m with
        term := { ozterm_move_cursor_diff m.term 1 0 with scroll_offset := 0 },
        parse_state := .STATE_NORMAL } := by
  unfold ozterm_put_character ozterm_put_character_switch esc_step
  rw [h]
  norm_num [snap_scroll_offset_eq]

/-- `ESC E` (next line) only moves the cursor. -/
theorem put_character_esc_E (m : OztermMachine)
    (h : m.parse_state = ParseState.STATE_ESC) :
    ozterm_put_character m 69 =
      { m with
        term := { ozterm_move_cursor m.term
          ((screen_active m.term).cursor_row + 1) 0 with scroll_offset := 0 },
        parse_state := .STATE_NORMAL } := by
  unfold ozterm_put_character ozterm_put_character_switch esc_step
  rw [h]
  norm_num [snap_scroll_offset_eq]

/-- The `B` (cursor down) branch of the CSI dispatch. -/
theorem csi_dispatch_B (t : Ozterm) (pb : List Nat) (ip : Bool) :
    csi_dispatch t pb ip 66 = ozterm_move_cursor_diff t (csi_p1 pb) 0 := by
  unfold csi_dispatch
  norm_num

/-- The `C` (cursor right) branch of the CSI dispatch. -/
theorem csi_dispatch_C (t : Ozterm) (pb : List Nat) (ip : Bool) :
    csi_dispatch t pb ip 67 = ozterm_move_cursor_diff t 0 (csi_p1 pb) := by
  unfold csi_dispatch
  norm_num

/-- The `D` (cursor left) branch of the CSI dispatch. -/
theorem csi_dispatch_D (t : Ozterm) (pb : List Nat) (ip : Bool) :
    csi_dispatch t pb ip 68 = ozterm_move_cursor_diff t 0 (-(csi_p1 pb)) := by
  unfold csi_dispatch
  norm_num

/-- The `H` (CUP) branch of the CSI dispatch. -/
theorem csi_dispatch_H (t : Ozterm) (pb : List Nat) (ip : Bool) :
    csi_dispatch t pb ip 72 =
      ozterm_move_cursor t (if 0 < csi_p1 pb then csi_p1 pb - 1 else 0)
        (if 0 < csi_p2 pb then csi_p2 pb - 1 else 0) := by
  unfold csi_dispatch
  norm_num

/-- The `f` (HVP) branch of the CSI dispatch. -/
theorem csi_dispatch_f (t : Ozterm) (pb : List Nat) (ip : Bool) :
    csi_dispatch t pb ip 102 =
      ozterm_move_cursor t (if 0 < csi_p1 pb then csi_p1 pb - 1 else 0)
        (if 0 < csi_p2 pb then csi_p2 pb - 1 else 0) := by
  unfold csi_dispatch
  norm_num

/-- The `d` (row addressing) branch of the CSI dispatch. -/
theorem csi_dispatch_d (t : Ozterm) (pb : List Nat) (ip : Bool) :
    csi_dispatch t pb ip 100 =
      ozterm_move_cursor t (if 0 < csi_p1 pb then csi_p1 pb - 1 else 0)
        ((screen_active t).cursor_column) := by
  unfold csi_dispatch
  norm_num

/-- The `G` (column addressing) branch of the CSI dispatch. -/
theorem csi_dispatch_G (t : Ozterm) (pb : List Nat) (ip : Bool) :
    csi_dispatch t pb ip 71 =
      ozterm_move_cursor t ((screen_active t).cursor_row)
        (if 0 < csi_p1 pb then csi_p1 pb - 1 else 0) := by
  unfold csi_dispatch
  norm_num

/-- Every motion final byte dispatches to a cursor move, which leaves the
saved cursor and the dimensions alone. -/
theorem csi_dispatch_motion_frame (t : Ozterm) (pb : List Nat) (ip : Bool)
    (fin : Nat) (hfin : fin ∈ motion_final_bytes) :
    (csi_dispatch t pb ip fin).saved_cursor_row = t.saved_cursor_row ∧
    (csi_dispatch t pb ip fin).saved_cursor_column = t.saved_cursor_column ∧
    (csi_dispatch t pb ip fin).row_count = t.row_count ∧
    (csi_dispatch t pb ip fin).column_count = t.column_count := by
  fin_cases hfin
  · rw [csi_dispatch_A]; exact move_cursor_diff_frame _ _ _
  · rw [csi_dispatch_B]; exact move_cursor_diff_frame _ _ _
  · rw [csi_dispatch_C]; exact move_cursor_diff_frame _ _ _
  · rw [csi_dispatch_D]; exact move_cursor_diff_frame _ _ _
  · rw [csi_dispatch_H]; exact move_cursor_frame _ _ _
  · rw [csi_dispatch_f]; exact move_cursor_frame _ _ _
  · rw [csi_dispatch_d]; exact move_cursor_frame _ _ _
  · rw [csi_dispatch_G]; exact move_cursor_frame _ _ _

/-- Feeding any run of digit/semicolon bytes in the CSI state stays in the
CSI state and leaves the saved cursor and dimensions alone. -/
theorem feed_params_csi_frame :
    ∀ (ps : List Nat) (m : OztermMachine),
      (∀ d ∈ ps, isdigitb d = true ∨ d = 59) →
      m.parse_state = ParseState.STATE_CSI →
      (ozterm_feed m ps).parse_state = ParseState.STATE_CSI ∧
      (ozterm_feed m ps).term.saved_cursor_row = m.term.saved_cursor_row ∧
      (ozterm_feed m ps).term.saved_cursor_column = m.term.saved_cursor_column ∧
      (ozterm_feed m ps).term.row_count = m.term.row_count ∧
      (ozterm_feed m ps).term.column_count = m.term.column_count := by
  intro ps
  induction ps with
  | nil => intro m _ h; exact ⟨h, rfl, rfl, rfl, rfl⟩
  | cons d rest ih =>
    intro m hps h
    have hd := hps d (List.mem_cons_self d rest)
    have hc2 : ¬(d = 63 ∨ d = 62) := by
      rcases hd with h1 | h1
      · simp [isdigitb] at h1
        omega
      · omega
    have e := put_character_csi_param m d h hd hc2
    rw [show ozterm_feed m (d :: rest) = ozterm_feed (ozterm_put_character m d) rest
      from rfl, e]
    have hrec := ih { m with
        term := { m.term with scroll_offset := 0 },
        seq_len := if m.seq_len < 63 then m.seq_len + 1 else m.seq_len,
        param_buf := if m.param_buf.length < 31 then m.param_buf ++ [d]
          else m.param_buf }
      (fun x hx => hps x (List.mem_cons_of_mem _ hx)) h
    exact hrec

/-- Every motion command, fed from the normal parse state, returns to the
normal parse state and leaves the saved cursor and dimensions alone. -/
theorem motion_cmd_frame (cmd : List Nat) (hm : MotionCmd cmd) :
    ∀ m : OztermMachine, m.parse_state = ParseState.STATE_NORMAL →
      (ozterm_feed m cmd).parse_state = ParseState.STATE_NORMAL ∧
      (ozterm_feed m cmd).term.saved_cursor_row = m.term.saved_cursor_row ∧
      (ozterm_feed m cmd).term.saved_cursor_column = m.term.saved_cursor_column ∧
      (ozterm_feed m cmd).term.row_count = m.term.row_count ∧
      (ozterm_feed m cmd).term.column_count = m.term.column_count := by
  cases hm with
  | cr =>
    intro m h
    have e : ozterm_feed m [13] = ozterm_put_character m 13 := rfl
    rw [e, put_character_normal_byte m h 13 (by decide) (by decide)]
    have hf := pcc_cr_bs_frame m.term 13 (Or.inl rfl)
    exact ⟨h, hf.1, hf.2.1, hf.2.2.1, hf.2.2.2⟩
  | bs =>
    intro m h
    have e : ozterm_feed m [8] = ozterm_put_character m 8 := rfl
    rw [e, put_character_normal_byte m h 8 (by decide) (by decide)]
    have hf := pcc_cr_bs_frame m.term 8 (Or.inr rfl)
    exact ⟨h, hf.1, hf.2.1, hf.2.2.1, hf.2.2.2⟩
  | ind =>
    intro m h
    have e : ozterm_feed m [27, 68] =
      ozterm_put_character (ozterm_put_character m 27) 68 := rfl
    rw [e, put_character_normal_esc m h, put_character_esc_D _ rfl]
    have hf := move_cursor_diff_frame { m.term with scroll_offset := 0 } 1 0
    exact ⟨rfl, hf.1, hf.2.1, hf.2.2.1, hf.2.2.2⟩
  | nel =>
    intro m h
    have e : ozterm_feed m [27, 69] =
      ozterm_put_character (ozterm_put_character m 27) 69 := rfl
    rw [e, put_character_normal_esc m h, put_character_esc_E _ rfl]
    have hf := move_cursor_frame { m.term with scroll_offset := 0 }
      ((screen_active { m.term with scroll_offset := 0 }).cursor_row + 1) 0
    exact ⟨rfl, hf.1, hf.2.1, hf.2.2.1, hf.2.2.2⟩
  | csi ps fin hps hfin =>
    intro m h
    have e : ozterm_feed m (27 :: 91 :: (ps ++ [fin])) =
        ozterm_feed (ozterm_put_character (ozterm_put_character m 27) 91)
          (ps ++ [fin]) := rfl
    rw [e, put_character_normal_esc m h, put_character_esc_csi _ rfl,
      ozterm_feed_append]
    have hfr := feed_params_csi_frame ps
      { m with parse_state := .STATE_CSI, param_buf := [], seq_len := 0,
               is_private := false,
               term := { { m.term with scroll_offset := 0 } with scroll_offset := 0 } }
      hps rfl
    have hfin_notparam : ¬(isdigitb fin = true ∨ fin = 59) := by
      fin_cases hfin <;> decide
    have hfin_notpriv : ¬(fin = 63 ∨ fin = 62) := by
      fin_cases hfin <;> decide
    have hfin_range : ¬(fin < 64 ∨ 126 < fin) := by
      fin_cases hfin <;> decide
    have efeed : ozterm_feed (ozterm_feed
        { m with parse_state := .STATE_CSI, param_buf := [], seq_len := 0,
                 is_private := false,
                 term := { { m.term with scroll_offset := 0 } with scroll_offset := 0 } }
        ps) [fin] =
      ozterm_put_character (ozterm_feed
        { m with parse_state := .STATE_CSI, param_buf := [], seq_len := 0,
                 is_private := false,
                 term := { { m.term with scroll_offset := 0 } with scroll_offset := 0 } }
        ps) fin := rfl
    rw [efeed, put_character_csi_final _ fin hfr.1 hfin_notpriv hfin_notparam hfin_range]
    have hdf := csi_dispatch_motion_frame (ozterm_feed
        { m with parse_state := .STATE_CSI, param_buf := [], seq_len := 0,
                 is_private := false,
                 term := { { m.term with scroll_offset := 0 } with scroll_offset := 0 } }
        ps).term
      (ozterm_feed
        { m with parse_state := .STATE_CSI, param_buf := [], seq_len := 0,
                 is_private := false,
                 term := { { m.term with scroll_offset := 0 } with scroll_offset := 0 } }
        ps).param_buf
      (ozterm_feed
        { m with parse_state := .STATE_CSI, param_buf := [], seq_len := 0,
                 is_private := false,
                 term := { { m.term with scroll_offset := 0 } with scroll_offset := 0 } }
        ps).is_private fin hfin
    refine ⟨rfl, ?_, ?_, ?_, ?_⟩
    · exact (hdf.1).trans hfr.2.1
    · exact (hdf.2.1).trans hfr.2.2.1
    · exact (hdf.2.2.1).trans hfr.2.2.2.1
    · exact (hdf.2.2.2).trans hfr.2.2.2.2

/-- A list of motion commands, fed from the normal state, returns to the
normal state and leaves the saved cursor and dimensions alone. -/
theorem motion_cmds_frame :
    ∀ (cs : List (List Nat)), (∀ cmd ∈ cs, MotionCmd cmd) →
      ∀ m : OztermMachine, m.parse_state = ParseState.STATE_NORMAL →
      (ozterm_feed m cs.flatten).parse_state = ParseState.STATE_NORMAL ∧
      (ozterm_feed m cs.flatten).term.saved_cursor_row = m.term.saved_cursor_row ∧
      (ozterm_feed m cs.flatten).term.saved_cursor_column = m.term.saved_cursor_column ∧
      (ozterm_feed m cs.flatten).term.row_count = m.term.row_count ∧
      (ozterm_feed m cs.flatten).term.column_count = m.term.column_count := by
  intro cs
  induction cs with
  | nil => intro _ m h; exact ⟨h, rfl, rfl, rfl, rfl⟩
  | cons c rest ih =>
    intro hcs m h
    have e : (c :: rest).flatten = c ++ rest.flatten := rfl
    rw [e, ozterm_feed_append]
    have h1 := motion_cmd_frame c (hcs c (List.mem_cons_self c rest)) m h
    have h2 := ih (fun cmd hc => hcs cmd (List.mem_cons_of_mem _ hc))
      (ozterm_feed m c) h1.1
    exact ⟨h2.1, h2.2.1.trans h1.2.1, h2.2.2.1.trans h1.2.2.1,
      h2.2.2.2.1.trans h1.2.2.2.1, h2.2.2.2.2.trans h1.2.2.2.2⟩

/-- Feeding `ESC 7` from the normal state: the active cursor is recorded in
the saved pair, and state returns to normal. -/
theorem feed_esc7 (m : OztermMachine) (h : m.parse_state = ParseState.STATE_NORMAL) :
    (ozterm_feed m [27, 55]).parse_state = ParseState.STATE_NORMAL ∧
    (ozterm_feed m [27, 55]).term.saved_cursor_row = (screen_active m.term).cursor_row ∧
    (ozterm_feed m [27, 55]).term.saved_cursor_column =
      (screen_active m.term).cursor_column ∧
    (ozterm_feed m [27, 55]).term.row_count = m.term.row_count ∧
    (ozterm_feed m [27, 55]).term.column_count = m.term.column_count := by
  have e7 : ozterm_feed m [27, 55] =
      ozterm_put_character (ozterm_put_character m 27) 55 := rfl
  rw [e7, put_character_normal_esc m h, put_character_esc_7 _ rfl]
  exact ⟨rfl, rfl, rfl, rfl, rfl⟩

/-- Feeding `ESC 8` from the normal state with an in-range saved pair moves
the active cursor exactly to the saved pair. -/
theorem feed_esc8_cursor (m : OztermMachine)
    (h : m.parse_state = ParseState.STATE_NORMAL)
    (hr : m.term.saved_cursor_row < m.term.row_count)
    (hc : m.term.saved_cursor_column < m.term.column_count) :
    (screen_active (ozterm_feed m [27, 56]).term).cursor_row =
      m.term.saved_cursor_row ∧
    (screen_active (ozterm_feed m [27, 56]).term).cursor_column =
      m.term.saved_cursor_column := by
  have e8 : ozterm_feed m [27, 56] =
      ozterm_put_character (ozterm_put_character m 27) 56 := rfl
  rw [e8, put_character_normal_esc m h, put_character_esc_8 _ rfl]
  exact move_cursor_exact { m.term with scroll_offset := 0 }
    m.term.saved_cursor_row m.term.saved_cursor_column hr hc

/-- C9 (confirmed): `ESC 7`, then any sequence of cursor-motion commands
(carriage return, backspace, `ESC D`, `ESC E`, and CSI `A B C D H f d G`
with arbitrary numeric parameters), then `ESC 8`, restores the active
screen's cursor to exactly the (row, col) it had when `ESC 7` was
processed (for an in-range cursor). -/
theorem C9_save_restore_roundtrip (m : OztermMachine) (cmds : List (List Nat))
    (h : m.parse_state = ParseState.STATE_NORMAL)
    (hc : ∀ cmd ∈ cmds, MotionCmd cmd)
    (hrow : (screen_active m.term).cursor_row < m.term.row_count)
    (hcol : (screen_active m.term).cursor_column < m.term.column_count) :
    (screen_active (ozterm_feed m ([27, 55] ++ cmds.flatten ++ [27, 56])).term).cursor_row =
      (screen_active m.term).cursor_row ∧
    (screen_active (ozterm_feed m ([27, 55] ++ cmds.flatten ++ [27, 56])).term).cursor_column =
      (screen_active m.term).cursor_column := by
  rw [ozterm_feed_append, ozterm_feed_append]
  have h7 := feed_esc7 m h
  have hfr := motion_cmds_frame cmds hc (ozterm_feed m [27, 55]) h7.1
  have h8 := feed_esc8_cursor (ozterm_feed (ozterm_feed m [27, 55]) cmds.flatten) hfr.1
    (by rw [hfr.2.1, hfr.2.2.2.1, h7.2.1, h7.2.2.2.1]; exact hrow)
    (by rw [hfr.2.2.1, hfr.2.2.2.2, h7.2.2.1, h7.2.2.2.2]; exact hcol)
  constructor
  · rw [h8.1, hfr.2.1, h7.2.1]
  · rw [h8.2, hfr.2.2.1, h7.2.2.1]

/-- Witness for C9: on a 5×5 terminal with cursor at (0, 2) after `"Hi"`,
doing `ESC 7`, then CR and cursor-down, then `ESC 8`, restores (0, 2). -/
theorem C9_save_restore_roundtrip_witness :
    ((ozterm_feed (ozterm_create 5 5) [72, 105]).parse_state =
        ParseState.STATE_NORMAL ∧
     (screen_active (ozterm_feed (ozterm_create 5 5) [72, 105]).term).cursor_row <
        (ozterm_feed (ozterm_create 5 5) [72, 105]).term.row_count ∧
     (screen_active (ozterm_feed (ozterm_create 5 5) [72, 105]).term).cursor_column <
        (ozterm_feed (ozterm_create 5 5) [72, 105]).term.column_count) ∧
    ((screen_active (ozterm_feed (ozterm_feed (ozterm_create 5 5) [72, 105])
        ([27, 55] ++ [[13], [27, 91, 66]].flatten ++ [27, 56])).term).cursor_row =
      (screen_active (ozterm_feed (ozterm_create 5 5) [72, 105]).term).cursor_row ∧
     (screen_active (ozterm_feed (ozterm_feed (ozterm_create 5 5) [72, 105])
        ([27, 55] ++ [[13], [27, 91, 66]].flatten ++ [27, 56])).term).cursor_column =
      (screen_active (ozterm_feed (ozterm_create 5 5) [72, 105]).term).cursor_column) := by
  refine ⟨⟨rfl, by decide, by decide⟩, ?_⟩
  refine C9_save_restore_roundtrip (ozterm_feed (ozterm_create 5 5) [72, 105])
    [[13], [27, 91, 66]] rfl ?_ (by decide) (by decide)
  intro cmd hcmd
  simp only [List.mem_cons, List.not_mem_nil, or_false] at hcmd
  rcases hcmd with rfl | rfl
  · exact MotionCmd.cr
  · exact MotionCmd.csi [] 66 (by simp) (by decide)

/-!  Protected-cell preservation of the guarded write loops.  -/

/-- `erase_cells` never changes a protected cell (every write is guarded on
the destination's protected bit). -/
theorem erase_cells_protected (color cols row xStart n : Nat) (b : Nat → OztermCell)
    (j : Nat) (hp : (b j).«protected» = true) :
    (erase_cells color cols b row xStart n) j = b j := by
  unfold erase_cells
  apply foldl_invariant _ (fun bb => bb j = b j) (List.range n) b rfl
  intro a k _ hP
  by_cases hpr : (a (row * cols + (xStart + k))).«protected»
  · simp [hpr, hP]
  · simp only [hpr, if_false, ite_false, Bool.false_eq_true]
    unfold updBuf
    by_cases hj : j = row * cols + (xStart + k)
    · exfalso
      apply hpr
      rw [← hj, hP, hp]
    · rw [if_neg hj]
      exact hP

/-- `copy_row_unprotected` never changes a protected cell. -/
theorem copy_row_unprotected_protected (cols : Nat) (b : Nat → OztermCell)
    (toRow fromRow j : Nat) (hp : (b j).«protected» = true) :
    (copy_row_unprotected cols b toRow fromRow) j = b j := by
  unfold copy_row_unprotected
  apply foldl_invariant _ (fun bb => bb j = b j) (List.range cols) b rfl
  intro a k _ hP
  by_cases hpr : (a (toRow * cols + k)).«protected»
  · simp [hpr, hP]
  · simp only [hpr, if_false, ite_false, Bool.false_eq_true]
    unfold updBuf
    by_cases hj : j = toRow * cols + k
    · exfalso
      apply hpr
      rw [← hj, hP, hp]
    · rw [if_neg hj]
      exact hP

/-- `clear_row` leaves every index outside its row alone. -/
theorem clear_row_outside (color cols : Nat) (b : Nat → OztermCell) (row j : Nat)
    (hj : ∀ c2, c2 < cols → j ≠ row * cols + c2) :
    (clear_row color cols b row) j = b j := by
  unfold clear_row
  apply foldl_invariant _ (fun bb => bb j = b j) (List.range cols) b rfl
  intro a k hk hP
  unfold updBuf
  rw [if_neg (hj k (List.mem_range.mp hk))]
  exact hP

/-- `clear_row` blanks every cell of its row. -/
theorem clear_row_at (color cols : Nat) (b : Nat → OztermCell) (row x : Nat)
    (hx : x < cols) :
    (clear_row color cols b row) (row * cols + x) = blank_cell color := by
  unfold clear_row
  apply foldl_establish _ (fun bb => bb (row * cols + x) = blank_cell color)
    (List.range cols) b x (List.mem_range.mpr hx)
  · intro a
    simp [updBuf]
  · intro a k _ hq
    unfold updBuf
    by_cases hj : row * cols + x = row * cols + k
    · rw [if_pos hj]
    · rw [if_neg hj]
      exact hq

/-- Applied form of `foldl_invariant` for cell buffers: if every iteration
keeps the value at index `j`, the fold keeps it. -/
theorem foldl_invariant_buffer
    (step : (Nat → OztermCell) → Nat → (Nat → OztermCell)) (l : List Nat)
    (b : Nat → OztermCell) (j : Nat) (v : OztermCell) (hb : b j = v)
    (h : ∀ a k, k ∈ l → a j = v → (step a k) j = v) :
    (l.foldl step b) j = v :=
  foldl_invariant step (fun bb => bb j = v) l b hb h

/-- The effective line count of a scroll-region operation never exceeds the
region height. -/
theorem scroll_region_lines_le (t : Ozterm) (lines0 : Int) :
    scroll_region_lines t lines0 ≤ (t.scroll_bottom : Int) - t.scroll_top + 1 := by
  unfold scroll_region_lines
  by_cases h0 : lines0 ≤ 0 <;>
    simp only [h0, if_true, if_false, ite_true, ite_false] <;>
    split_ifs <;> omega

/-- The effective count of an insert/delete-lines operation never exceeds
the span from `from_row` to the region bottom. -/
theorem line_op_count_le (t : Ozterm) (from_row : Nat) (count0 : Int) :
    line_op_count t from_row count0 ≤ (t.scroll_bottom : Int) - from_row + 1 := by
  unfold line_op_count
  split_ifs <;> omega

/-- CSI `J` never changes a protected cell (all three modes). -/
theorem csi_J_protected (t : Ozterm) (pb : List Nat) (j : Nat)
    (hp : ((screen_active t).buffer j).«protected» = true) :
    (screen_active (csi_J t pb)).buffer j = (screen_active t).buffer j := by
  unfold csi_J
  simp only [screen_active_set_screen_active]
  split_ifs <;>
  · apply foldl_invariant_buffer _ _ _ _ _ rfl
    intro a k _ hP
    rw [erase_cells_protected _ _ _ _ _ a j (by rw [hP]; exact hp)]
    exact hP

/-- CSI `K` never changes a protected cell. -/
theorem csi_K_protected (t : Ozterm) (pb : List Nat) (j : Nat)
    (hp : ((screen_active t).buffer j).«protected» = true) :
    (screen_active (csi_K t pb)).buffer j = (screen_active t).buffer j := by
  unfold csi_K
  simp only [screen_active_set_screen_active]
  exact erase_cells_protected _ _ _ _ _ _ j hp

/-- A guarded write never changes a cell that is protected. -/
theorem updBuf_guarded (b : Nat → OztermCell) (idx : Nat) (v : OztermCell) (j : Nat)
    (hpj : (b j).«protected» = true) (hpr : ¬(b idx).«protected» = true) :
    updBuf b idx v j = b j := by
  unfold updBuf
  by_cases hj : j = idx
  · exact absurd (hj ▸ hpj) hpr
  · rw [if_neg hj]

/-- A loop body of the shape `if protected(dst) then skip else write one of
two values` never changes a protected cell. -/
theorem guarded_step_preserve2 (b : Nat → OztermCell) (idx : Nat) (C : Prop)
    [Decidable C] (v1 v2 : OztermCell) (j : Nat) (hpj : (b j).«protected» = true) :
    (if (b idx).«protected» = true then b
     else if C then updBuf b idx v1 else updBuf b idx v2) j = b j := by
  by_cases h1 : (b idx).«protected» = true
  · rw [if_pos h1]
  · rw [if_neg h1]
    by_cases h2 : C
    · rw [if_pos h2]
      exact updBuf_guarded b idx v1 j hpj h1
    · rw [if_neg h2]
      exact updBuf_guarded b idx v2 j hpj h1

/-- A loop body of the shape `if protected(dst) then skip else write` never
changes a protected cell. -/
theorem guarded_step_preserve1 (b : Nat → OztermCell) (idx : Nat) (v : OztermCell)
    (j : Nat) (hpj : (b j).«protected» = true) :
    (if (b idx).«protected» = true then b else updBuf b idx v) j = b j := by
  by_cases h1 : (b idx).«protected» = true
  · rw [if_pos h1]
  · rw [if_neg h1]
    exact updBuf_guarded b idx v j hpj h1

/-- CSI `@` (insert characters) never changes a protected cell: both the
shift and the fill guard every write on the destination's protected bit. -/
theorem line_insert_characters_protected (t : Ozterm) (c : Nat) (count0 : Int)
    (j : Nat) (hp : ((screen_active t).buffer j).«protected» = true) :
    (screen_active (ozterm_line_insert_characters t c count0)).buffer j =
      (screen_active t).buffer j := by
  unfold ozterm_line_insert_characters
  dsimp only
  by_cases hret : (t.column_count : Int) ≤ ((screen_active t).cursor_column : Int)
  · rw [if_pos hret]
  · rw [if_neg hret]
    simp only [screen_active_set_screen_active]
    refine foldl_invariant_buffer _ _ _ _ _ ?_ ?_
    · refine foldl_invariant_buffer _ _ _ _ _ rfl ?_
      intro a k _ hP
      exact (guarded_step_preserve2 a _ _ _ _ j (by rw [hP]; exact hp)).trans hP
    · intro a k _ hP
      exact (guarded_step_preserve1 a _ _ j (by rw [hP]; exact hp)).trans hP

/-- CSI `P` (delete characters) never changes a protected cell. -/
theorem line_delete_characters_protected (t : Ozterm) (count0 : Int)
    (j : Nat) (hp : ((screen_active t).buffer j).«protected» = true) :
    (screen_active (ozterm_line_delete_characters t count0)).buffer j =
      (screen_active t).buffer j := by
  unfold ozterm_line_delete_characters
  dsimp only
  by_cases hret : (t.column_count : Int) ≤ ((screen_active t).cursor_column : Int)
  · rw [if_pos hret]
  · rw [if_neg hret]
    simp only [screen_active_set_screen_active]
    refine foldl_invariant_buffer _ _ _ _ _ ?_ ?_
    · refine foldl_invariant_buffer _ _ _ _ _ rfl ?_
      intro a k _ hP
      exact (guarded_step_preserve2 a _ _ _ _ j (by rw [hP]; exact hp)).trans hP
    · intro a k _ hP
      exact (guarded_step_preserve1 a _ _ j (by rw [hP]; exact hp)).trans hP

/-- Scroll-region-up: a protected cell in a row outside the cleared range
`[bottom - lines + 1, bottom]` is unchanged (the shift skips protected
destinations; only the unconditional clear can overwrite it). -/
theorem scroll_up_region_protected_outside (t : Ozterm) (lines0 : Int)
    (row col : Nat) (hcol : col < t.column_count)
    (hp : ((screen_active t).buffer (row * t.column_count + col)).«protected» = true)
    (hout : ¬((t.scroll_bottom : Int) - scroll_region_lines t lines0 + 1 ≤ (row : Int) ∧
        (row : Int) ≤ (t.scroll_bottom : Int))) :
    (screen_active (ozterm_scroll_up_region t lines0)).buffer
        (row * t.column_count + col) =
      (screen_active t).buffer (row * t.column_count + col) := by
  unfold ozterm_scroll_up_region
  dsimp only
  simp only [screen_active_set_screen_active]
  refine foldl_invariant_buffer _ _ _ _ _ ?_ ?_
  · refine foldl_invariant_buffer _ _ _ _ _ rfl ?_
    intro a k _ hP
    exact (copy_row_unprotected_protected _ a _ _ _ (by rw [hP]; exact hp)).trans hP
  · intro a k hk hP
    refine (clear_row_outside _ _ a _ _ ?_).trans hP
    intro c2 hc2
    have hr : ((t.scroll_bottom : Int) - scroll_region_lines t lines0 + 1 + (k : Int)).toNat ≠ row := by
      have hkk := List.mem_range.mp hk
      have hle := scroll_region_lines_le t lines0
      omega
    exact (rowcol_ne hc2 hcol hr).symm

/-- Scroll-region-down: a protected cell in a row outside the cleared range
`[top, top + lines)` is unchanged. -/
theorem scroll_down_region_protected_outside (t : Ozterm) (lines0 : Int)
    (row col : Nat) (hcol : col < t.column_count)
    (hp : ((screen_active t).buffer (row * t.column_count + col)).«protected» = true)
    (hout : ¬((t.scroll_top : Int) ≤ (row : Int) ∧
        (row : Int) < (t.scroll_top : Int) + scroll_region_lines t lines0)) :
    (screen_active (ozterm_scroll_down_region t lines0)).buffer
        (row * t.column_count + col) =
      (screen_active t).buffer (row * t.column_count + col) := by
  unfold ozterm_scroll_down_region
  dsimp only
  simp only [screen_active_set_screen_active]
  refine foldl_invariant_buffer _ _ _ _ _ ?_ ?_
  · refine foldl_invariant_buffer _ _ _ _ _ rfl ?_
    intro a k _ hP
    exact (copy_row_unprotected_protected _ a _ _ _ (by rw [hP]; exact hp)).trans hP
  · intro a k hk hP
    refine (clear_row_outside _ _ a _ _ ?_).trans hP
    intro c2 hc2
    have hr : ((t.scroll_top : Int) + (k : Int)).toNat ≠ row := by
      have hkk := List.mem_range.mp hk
      omega
    exact (rowcol_ne hc2 hcol hr).symm

/-- Insert-lines: a protected cell in a row outside the cleared range
`[from_row, from_row + count)` is unchanged. -/
theorem insert_lines_protected_outside (t : Ozterm) (from_row : Nat) (count0 : Int)
    (row col : Nat) (hcol : col < t.column_count)
    (hp : ((screen_active t).buffer (row * t.column_count + col)).«protected» = true)
    (hout : ¬((from_row : Int) ≤ (row : Int) ∧
        (row : Int) < (from_row : Int) + line_op_count t from_row count0)) :
    (screen_active (ozterm_insert_lines t from_row count0)).buffer
        (row * t.column_count + col) =
      (screen_active t).buffer (row * t.column_count + col) := by
  unfold ozterm_insert_lines
  dsimp only
  by_cases h0 : count0 ≤ 0
  · rw [if_pos h0]
  · rw [if_neg h0]
    by_cases h1 : from_row < t.scroll_top ∨ (t.scroll_bottom : Int) < (from_row : Int)
    · rw [if_pos h1]
    · rw [if_neg h1]
      simp only [screen_active_set_screen_active]
      refine foldl_invariant_buffer _ _ _ _ _ ?_ ?_
      · refine foldl_invariant_buffer _ _ _ _ _ rfl ?_
        intro a k _ hP
        exact (copy_row_unprotected_protected _ a _ _ _ (by rw [hP]; exact hp)).trans hP
      · intro a k hk hP
        refine (clear_row_outside _ _ a _ _ ?_).trans hP
        intro c2 hc2
        have hr : ((from_row : Int) + (k : Int)).toNat ≠ row := by
          have hkk := List.mem_range.mp hk
          omega
        exact (rowcol_ne hc2 hcol hr).symm

/-- Delete-lines: a protected cell in a row outside the cleared range
`[bottom - count + 1, bottom]` is unchanged. -/
theorem delete_lines_protected_outside (t : Ozterm) (from_row : Nat) (count0 : Int)
    (row col : Nat) (hcol : col < t.column_count)
    (hp : ((screen_active t).buffer (row * t.column_count + col)).«protected» = true)
    (hout : ¬((t.scroll_bottom : Int) - line_op_count t from_row count0 + 1 ≤ (row : Int) ∧
        (row : Int) ≤ (t.scroll_bottom : Int))) :
    (screen_active (ozterm_delete_lines t from_row count0)).buffer
        (row * t.column_count + col) =
      (screen_active t).buffer (row * t.column_count + col) := by
  unfold ozterm_delete_lines
  dsimp only
  by_cases h0 : count0 ≤ 0
  · rw [if_pos h0]
  · rw [if_neg h0]
    by_cases h1 : from_row < t.scroll_top ∨ (t.scroll_bottom : Int) < (from_row : Int)
    · rw [if_pos h1]
    · rw [if_neg h1]
      simp only [screen_active_set_screen_active]
      refine foldl_invariant_buffer _ _ _ _ _ ?_ ?_
      · refine foldl_invariant_buffer _ _ _ _ _ rfl ?_
        intro a k _ hP
        exact (copy_row_unprotected_protected _ a _ _ _ (by rw [hP]; exact hp)).trans hP
      · intro a k hk hP
        refine (clear_row_outside _ _ a _ _ ?_).trans hP
        intro c2 hc2
        have hr : ((t.scroll_bottom : Int) - line_op_count t from_row count0 + 1 + (k : Int)).toNat ≠ row := by
          have hkk := List.mem_range.mp hk
          have hle := line_op_count_le t from_row count0
          omega
        exact (rowcol_ne hc2 hcol hr).symm

/-- C2 (corrected): a protected cell is never overwritten by erase-screen
(CSI J), erase-line (CSI K), insert-characters (CSI @) or
delete-characters (CSI P); under scroll-region-up/down and
insert/delete-lines the shift phase also never overwrites it, but the
final clear phase of those four operations resets every cell of the
cleared rows unconditionally — so a protected cell survives exactly when
its row lies outside the cleared range (see the counterexample for a
protected cell inside it). -/
theorem C2_protected_cell_invariance :
    (∀ (t : Ozterm) (pb : List Nat) (j : Nat),
      ((screen_active t).buffer j).«protected» = true →
      (screen_active (csi_J t pb)).buffer j = (screen_active t).buffer j) ∧
    (∀ (t : Ozterm) (pb : List Nat) (j : Nat),
      ((screen_active t).buffer j).«protected» = true →
      (screen_active (csi_K t pb)).buffer j = (screen_active t).buffer j) ∧
    (∀ (t : Ozterm) (c : Nat) (count0 : Int) (j : Nat),
      ((screen_active t).buffer j).«protected» = true →
      (screen_active (ozterm_line_insert_characters t c count0)).buffer j =
        (screen_active t).buffer j) ∧
    (∀ (t : Ozterm) (count0 : Int) (j : Nat),
      ((screen_active t).buffer j).«protected» = true →
      (screen_active (ozterm_line_delete_characters t count0)).buffer j =
        (screen_active t).buffer j) ∧
    (∀ (t : Ozterm) (lines0 : Int) (row col : Nat), col < t.column_count →
      ((screen_active t).buffer (row * t.column_count + col)).«protected» = true →
      ¬((t.scroll_bottom : Int) - scroll_region_lines t lines0 + 1 ≤ (row : Int) ∧
          (row : Int) ≤ (t.scroll_bottom : Int)) →
      (screen_active (ozterm_scroll_up_region t lines0)).buffer
          (row * t.column_count + col) =
        (screen_active t).buffer (row * t.column_count + col)) ∧
    (∀ (t : Ozterm) (lines0 : Int) (row col : Nat), col < t.column_count →
      ((screen_active t).buffer (row * t.column_count + col)).«protected» = true →
      ¬((t.scroll_top : Int) ≤ (row : Int) ∧
          (row : Int) < (t.scroll_top : Int) + scroll_region_lines t lines0) →
      (screen_active (ozterm_scroll_down_region t lines0)).buffer
          (row * t.column_count + col) =
        (screen_active t).buffer (row * t.column_count + col)) ∧
    (∀ (t : Ozterm) (from_row : Nat) (count0 : Int) (row col : Nat),
      col < t.column_count →
      ((screen_active t).buffer (row * t.column_count + col)).«protected» = true →
      ¬((from_row : Int) ≤ (row : Int) ∧
          (row : Int) < (from_row : Int) + line_op_count t from_row count0) →
      (screen_active (ozterm_insert_lines t from_row count0)).buffer
          (row * t.column_count + col) =
        (screen_active t).buffer (row * t.column_count + col)) ∧
    (∀ (t : Ozterm) (from_row : Nat) (count0 : Int) (row col : Nat),
      col < t.column_count →
      ((screen_active t).buffer (row * t.column_count + col)).«protected» = true →
      ¬((t.scroll_bottom : Int) - line_op_count t from_row count0 + 1 ≤ (row : Int) ∧
          (row : Int) ≤ (t.scroll_bottom : Int)) →
      (screen_active (ozterm_delete_lines t from_row count0)).buffer
          (row * t.column_count + col) =
        (screen_active t).buffer (row * t.column_count + col)) :=
  ⟨csi_J_protected, csi_K_protected, line_insert_characters_protected,
   line_delete_characters_protected, scroll_up_region_protected_outside,
   scroll_down_region_protected_outside, insert_lines_protected_outside,
   delete_lines_protected_outside⟩

/-- Witness for C2: the protected `'a'` at cell (0, 0) of
`protected_cell_demo_term` survives all eight operations (with row 0
outside every cleared range). -/
theorem C2_protected_cell_invariance_witness :
    (((screen_active protected_cell_demo_term).buffer 0).«protected» = true) ∧
    (screen_active (csi_J protected_cell_demo_term [])).buffer 0 =
      (screen_active protected_cell_demo_term).buffer 0 ∧
    (screen_active (csi_K protected_cell_demo_term [])).buffer 0 =
      (screen_active protected_cell_demo_term).buffer 0 ∧
    (screen_active (ozterm_line_insert_characters protected_cell_demo_term 32 1)).buffer 0 =
      (screen_active protected_cell_demo_term).buffer 0 ∧
    (screen_active (ozterm_line_delete_characters protected_cell_demo_term 1)).buffer 0 =
      (screen_active protected_cell_demo_term).buffer 0 ∧
    (screen_active (ozterm_scroll_up_region protected_cell_demo_term 1)).buffer
        (0 * protected_cell_demo_term.column_count + 0) =
      (screen_active protected_cell_demo_term).buffer
        (0 * protected_cell_demo_term.column_count + 0) ∧
    (screen_active (ozterm_scroll_down_region protected_bottom_demo_term 1)).buffer
        (1 * protected_bottom_demo_term.column_count + 0) =
      (screen_active protected_bottom_demo_term).buffer
        (1 * protected_bottom_demo_term.column_count + 0) ∧
    (screen_active (ozterm_insert_lines protected_cell_demo_term 1 1)).buffer
        (0 * protected_cell_demo_term.column_count + 0) =
      (screen_active protected_cell_demo_term).buffer
        (0 * protected_cell_demo_term.column_count + 0) ∧
    (screen_active (ozterm_delete_lines protected_cell_demo_term 1 1)).buffer
        (0 * protected_cell_demo_term.column_count + 0) =
      (screen_active protected_cell_demo_term).buffer
        (0 * protected_cell_demo_term.column_count + 0) := by
  refine ⟨by decide, ?_, ?_, ?_, ?_, ?_, ?_, ?_, ?_⟩
  · exact C2_protected_cell_invariance.1 protected_cell_demo_term [] 0 (by decide)
  · exact C2_protected_cell_invariance.2.1 protected_cell_demo_term [] 0 (by decide)
  · exact C2_protected_cell_invariance.2.2.1 protected_cell_demo_term 32 1 0 (by decide)
  · exact C2_protected_cell_invariance.2.2.2.1 protected_cell_demo_term 1 0 (by decide)
  · exact C2_protected_cell_invariance.2.2.2.2.1 protected_cell_demo_term 1 0 0
      (by decide) (by decide) (by decide)
  · exact C2_protected_cell_invariance.2.2.2.2.2.1 protected_bottom_demo_term 1 1 0
      (by decide) (by decide) (by decide)
  · exact C2_protected_cell_invariance.2.2.2.2.2.2.1 protected_cell_demo_term 1 1 0 0
      (by decide) (by decide) (by decide)
  · exact C2_protected_cell_invariance.2.2.2.2.2.2.2 protected_cell_demo_term 1 1 0 0
      (by decide) (by decide) (by decide)

/-- Counterexample to C2 as stated: the protected `'a'` at (1, 0) — the
bottom row of the scroll region — is blanked (protected bit included) by
scroll-region-up, because the clear phase of `ozterm_scroll_up_region`
writes unconditionally. -/
theorem C2_counterexample :
    ((screen_active protected_bottom_demo_term).buffer 2).«protected» = true ∧
    ((screen_active protected_bottom_demo_term).buffer 2).character = 97 ∧
    (screen_active (ozterm_scroll_up_region protected_bottom_demo_term 1)).buffer 2 =
      { character := 32, color := 10, «protected» := false } :=
  ⟨rfl, rfl, rfl⟩

/-- Full characterization of `copy_row_unprotected` for distinct rows: a
non-protected destination cell receives the source row's cell, a protected
one keeps its value, and every index outside the destination row is left
alone. -/
theorem copy_row_unprotected_spec (cols : Nat) (b : Nat → OztermCell)
    (toRow fromRow : Nat) (hne : toRow ≠ fromRow) :
    (∀ x, x < cols →
      copy_row_unprotected cols b toRow fromRow (toRow * cols + x) =
        (if (b (toRow * cols + x)).«protected» then b (toRow * cols + x)
         else b (fromRow * cols + x))) ∧
    (∀ j, (∀ x, x < cols → j ≠ toRow * cols + x) →
      copy_row_unprotected cols b toRow fromRow j = b j) := by
  unfold copy_row_unprotected
  have key := foldl_range_invariant
    (fun b2 x =>
      if (b2 (toRow * cols + x)).«protected» then b2
      else updBuf b2 (toRow * cols + x) (b2 (fromRow * cols + x)))
    (fun k bb =>
      (∀ x, x < cols →
        (x < k → bb (toRow * cols + x) =
          (if (b (toRow * cols + x)).«protected» then b (toRow * cols + x)
           else b (fromRow * cols + x))) ∧
        (k ≤ x → bb (toRow * cols + x) = b (toRow * cols + x))) ∧
      (∀ j, (∀ x, x < cols → j ≠ toRow * cols + x) → bb j = b j))
    cols b
    ⟨fun x _ => ⟨fun h => absurd h (Nat.not_lt_zero x), fun _ => rfl⟩, fun _ _ => rfl⟩
    ?_
  · refine ⟨fun x hx => (key.1 x hx).1 hx, key.2⟩
  · intro j a hj hP
    dsimp only
    have hcur : a (toRow * cols + j) = b (toRow * cols + j) := (hP.1 j hj).2 le_rfl
    have hfrom : a (fromRow * cols + j) = b (fromRow * cols + j) :=
      hP.2 _ (fun x hx => rowcol_ne hj hx (fun he => hne he.symm))
    by_cases hpa : (a (toRow * cols + j)).«protected» = true
    · rw [if_pos hpa]
      have hprot : (b (toRow * cols + j)).«protected» = true := by
        rw [← hcur]
        exact hpa
      refine ⟨fun x hx => ⟨?_, fun hle => (hP.1 x hx).2 (by omega)⟩, hP.2⟩
      intro hxk
      by_cases hxj : x = j
      · subst hxj
        rw [hcur, if_pos hprot]
      · exact (hP.1 x hx).1 (by omega)
    · rw [if_neg hpa]
      have hprot : ¬(b (toRow * cols + j)).«protected» = true := by
        rw [← hcur]
        exact hpa
      constructor
      · intro x hx
        constructor
        · intro hxk
          by_cases hxj : x = j
          · subst hxj
            unfold updBuf
            rw [if_pos rfl, hfrom, if_neg hprot]
          · have hne2 : toRow * cols + x ≠ toRow * cols + j := by omega
            unfold updBuf
            rw [if_neg hne2]
            exact (hP.1 x hx).1 (by omega)
        · intro hle
          have hne2 : toRow * cols + x ≠ toRow * cols + j := by omega
          unfold updBuf
          rw [if_neg hne2]
          exact (hP.1 x hx).2 (by omega)
      · intro i hi
        unfold updBuf
        rw [if_neg (hi j hj)]
        exact hP.2 i hi

/-- Scrolling the region up by one line: every region row except the last
receives the row below it (protected cells keep their value), and the
bottom region row becomes blank. -/
theorem scroll_up_region_one (t : Ozterm) (htb : t.scroll_top ≤ t.scroll_bottom) :
    (∀ y col, col < t.column_count → t.scroll_top ≤ y → y < t.scroll_bottom →
      (screen_active (ozterm_scroll_up_region t 1)).buffer (y * t.column_count + col) =
        (if ((screen_active t).buffer (y * t.column_count + col)).«protected»
         then (screen_active t).buffer (y * t.column_count + col)
         else (screen_active t).buffer ((y + 1) * t.column_count + col))) ∧
    (∀ col, col < t.column_count →
      (screen_active (ozterm_scroll_up_region t 1)).buffer
        (t.scroll_bottom * t.column_count + col) = blank_cell t.color) := by
  have hL : scroll_region_lines t 1 = 1 := by
    unfold scroll_region_lines
    dsimp only
    rw [ite_self, if_neg (by omega)]
  unfold ozterm_scroll_up_region
  rw [hL]
  have e0 : ((t.scroll_bottom : Int) - 1 + 1 - (t.scroll_top : Int)).toNat =
      t.scroll_bottom - t.scroll_top := by omega
  have e1 : ∀ k : Nat, ((t.scroll_top : Int) + (k : Int)).toNat = t.scroll_top + k := by
    intro k
    omega
  have e2 : ∀ k : Nat, ((t.scroll_top : Int) + (k : Int) + 1).toNat =
      t.scroll_top + k + 1 := by
    intro k
    omega
  have e3 : ∀ k : Nat, ((t.scroll_bottom : Int) - 1 + 1 + (k : Int)).toNat =
      t.scroll_bottom + k := by
    intro k
    omega
  have e4 : (1 : Int).toNat = 1 := rfl
  have hr1 : List.range 1 = [0] := rfl
  simp only [e0, e1, e2, e3, e4, screen_active_set_screen_active, hr1,
    List.foldl_cons, List.foldl_nil, Nat.add_zero, Nat.cast_zero]
  have hmove := foldl_range_invariant
    (fun b k => copy_row_unprotected t.column_count b (t.scroll_top + k)
      (t.scroll_top + k + 1))
    (fun k bb => ∀ y col, col < t.column_count →
      ((t.scroll_top ≤ y ∧ y < t.scroll_top + k) →
        bb (y * t.column_count + col) =
          (if ((screen_active t).buffer (y * t.column_count + col)).«protected»
           then (screen_active t).buffer (y * t.column_count + col)
           else (screen_active t).buffer ((y + 1) * t.column_count + col))) ∧
      (¬(t.scroll_top ≤ y ∧ y < t.scroll_top + k) →
        bb (y * t.column_count + col) = (screen_active t).buffer (y * t.column_count + col)))
    (t.scroll_bottom - t.scroll_top) ((screen_active t).buffer)
    (fun y col hcol => ⟨fun h => absurd h (by omega), fun _ => rfl⟩)
    ?_
  · constructor
    · intro y col hcol hy1 hy2
      rw [clear_row_outside t.color t.column_count _ t.scroll_bottom
        (y * t.column_count + col) (fun x hx => rowcol_ne hcol hx (Nat.ne_of_lt hy2))]
      exact (hmove y col hcol).1 ⟨hy1, by omega⟩
    · intro col hcol
      exact clear_row_at t.color t.column_count _ t.scroll_bottom col hcol
  · intro j a hj hP
    dsimp only
    have spec := copy_row_unprotected_spec t.column_count a (t.scroll_top + j)
      (t.scroll_top + j + 1) (by omega)
    intro y col hcol
    constructor
    · intro hy
      by_cases hyj : y = t.scroll_top + j
      · subst hyj
        rw [spec.1 col hcol, (hP (t.scroll_top + j) col hcol).2 (by omega),
          (hP (t.scroll_top + j + 1) col hcol).2 (by omega)]
      · rw [spec.2 _ (fun x hx => rowcol_ne hcol hx (by omega))]
        exact (hP y col hcol).1 (by omega)
    · intro hy
      rw [spec.2 _ (fun x hx => rowcol_ne hcol hx (by omega))]
      exact (hP y col hcol).2 (by omega)

/-- In the normal parse state, a newline with the cursor on `scroll_bottom`
is exactly a one-line `ozterm_scroll_up`. -/
theorem pcc_newline_bottom (t : Ozterm)
    (hcur : (screen_active t).cursor_row = t.scroll_bottom) :
    ozterm_put_character_and_cursor t 10 = ozterm_scroll_up t 1 := by
  unfold ozterm_put_character_and_cursor
  rw [if_pos rfl, if_pos hcur]

/-- A one-line `ozterm_scroll_up` first records the `scroll_top` row of the
ACTIVE screen into the scrollback ring — with no check of which screen is
active — and then scrolls the region. -/
theorem scroll_up_one_unfold (t : Ozterm) :
    ozterm_scroll_up t 1 = ozterm_scroll_up_region
      { t with
        scrollback := fun i => if i = t.scrollback_head then
          (fun x => if x < t.column_count then
            (screen_active t).buffer (t.scroll_top * t.column_count + x)
          else t.scrollback t.scrollback_head x)
        else t.scrollback i,
        scrollback_head := (t.scrollback_head + 1) % SCROLLBACK_LINES,
        scrollback_count := if t.scrollback_count < SCROLLBACK_LINES
          then t.scrollback_count + 1 else t.scrollback_count } 1 := by
  have h1 : (if (1 : Int) ≤ 0 then (1 : Int) else 1) = 1 := rfl
  have hr1 : List.range (1 : Int).toNat = [0] := rfl
  simp only [ozterm_scroll_up, h1, hr1, List.foldl_cons, List.foldl_nil, Nat.add_zero]

/-- `ozterm_scroll_up_region` touches only the active buffer: the scrollback
ring, its head and count, the active-screen flag and the cursor survive. -/
theorem scroll_up_region_frame (t : Ozterm) (n : Int) :
    (ozterm_scroll_up_region t n).scrollback = t.scrollback ∧
    (ozterm_scroll_up_region t n).scrollback_head = t.scrollback_head ∧
    (ozterm_scroll_up_region t n).scrollback_count = t.scrollback_count ∧
    (ozterm_scroll_up_region t n).alternative_active = t.alternative_active ∧
    (screen_active (ozterm_scroll_up_region t n)).cursor_row =
      (screen_active t).cursor_row ∧
    (screen_active (ozterm_scroll_up_region t n)).cursor_column =
      (screen_active t).cursor_column := by
  unfold ozterm_scroll_up_region
  refine ⟨by simp, by simp, by simp, by simp, by simp, by simp⟩

/-- C1 (corrected): in the normal parse state, feeding `\n` with the cursor
on `scroll_bottom` scrolls the scroll region up by one line (each region row
takes the row below it unless the destination cell is protected, and the
bottom region row is blanked), the cursor stays put, and the evicted
`scroll_top` row is appended to the scrollback ring UNCONDITIONALLY —
`ozterm_scroll_up` never checks which screen is active, so the entry is
written even when the alternate screen is active (see the counterexample);
the claim's "iff the active screen is the main screen" does not hold. -/
theorem C1_newline_at_bottom (m : OztermMachine)
    (h : m.parse_state = ParseState.STATE_NORMAL)
    (hcur : (screen_active m.term).cursor_row = m.term.scroll_bottom)
    (htb : m.term.scroll_top ≤ m.term.scroll_bottom) :
    (∀ x, x < m.term.column_count →
      (ozterm_put_character m 10).term.scrollback m.term.scrollback_head x =
        (screen_active m.term).buffer
          (m.term.scroll_top * m.term.column_count + x)) ∧
    (ozterm_put_character m 10).term.scrollback_head =
      (m.term.scrollback_head + 1) % SCROLLBACK_LINES ∧
    (ozterm_put_character m 10).term.scrollback_count =
      (if m.term.scrollback_count < SCROLLBACK_LINES
       then m.term.scrollback_count + 1 else m.term.scrollback_count) ∧
    (ozterm_put_character m 10).term.alternative_active =
      m.term.alternative_active ∧
    (∀ y col, col < m.term.column_count → m.term.scroll_top ≤ y →
      y < m.term.scroll_bottom →
      (screen_active (ozterm_put_character m 10).term).buffer
          (y * m.term.column_count + col) =
        (if ((screen_active m.term).buffer
              (y * m.term.column_count + col)).«protected»
         then (screen_active m.term).buffer (y * m.term.column_count + col)
         else (screen_active m.term).buffer
           ((y + 1) * m.term.column_count + col))) ∧
    (∀ col, col < m.term.column_count →
      (screen_active (ozterm_put_character m 10).term).buffer
          (m.term.scroll_bottom * m.term.column_count + col) =
        blank_cell m.term.color) ∧
    (screen_active (ozterm_put_character m 10).term).cursor_row =
      m.term.scroll_bottom ∧
    (screen_active (ozterm_put_character m 10).term).cursor_column =
      (screen_active m.term).cursor_column := by
  have hR : (ozterm_put_character m 10).term =
      { ozterm_scroll_up m.term 1 with scroll_offset := 0 } := by
    rw [put_character_normal_byte m h 10 (by norm_num) (by norm_num),
      pcc_newline_bottom m.term hcur]
  obtain ⟨T, hT, hsb, hhd, hct, hAA, hsa, htop, hbot, hcols, hcolor, hone, hframe⟩ :
      ∃ T : Ozterm, ozterm_scroll_up m.term 1 = ozterm_scroll_up_region T 1 ∧
        T.scrollback = (fun i => if i = m.term.scrollback_head then
          (fun x => if x < m.term.column_count then
            (screen_active m.term).buffer
              (m.term.scroll_top * m.term.column_count + x)
          else m.term.scrollback m.term.scrollback_head x)
        else m.term.scrollback i) ∧
        T.scrollback_head = (m.term.scrollback_head + 1) % SCROLLBACK_LINES ∧
        T.scrollback_count = (if m.term.scrollback_count < SCROLLBACK_LINES
          then m.term.scrollback_count + 1 else m.term.scrollback_count) ∧
        T.alternative_active = m.term.alternative_active ∧
        screen_active T = screen_active m.term ∧
        T.scroll_top = m.term.scroll_top ∧
        T.scroll_bottom = m.term.scroll_bottom ∧
        T.column_count = m.term.column_count ∧
        T.color = m.term.color ∧
        ((∀ y col, col < T.column_count → T.scroll_top ≤ y →
          y < T.scroll_bottom →
          (screen_active (ozterm_scroll_up_region T 1)).buffer
              (y * T.column_count + col) =
            (if ((screen_active T).buffer (y * T.column_count + col)).«protected»
             then (screen_active T).buffer (y * T.column_count + col)
             else (screen_active T).buffer ((y + 1) * T.column_count + col))) ∧
         (∀ col, col < T.column_count →
          (screen_active (ozterm_scroll_up_region T 1)).buffer
            (T.scroll_bottom * T.column_count + col) = blank_cell T.color)) ∧
        ((ozterm_scroll_up_region T 1).scrollback = T.scrollback ∧
         (ozterm_scroll_up_region T 1).scrollback_head = T.scrollback_head ∧
         (ozterm_scroll_up_region T 1).scrollback_count = T.scrollback_count ∧
         (ozterm_scroll_up_region T 1).alternative_active =
           T.alternative_active ∧
         (screen_active (ozterm_scroll_up_region T 1)).cursor_row =
           (screen_active T).cursor_row ∧
         (screen_active (ozterm_scroll_up_region T 1)).cursor_column =
           (screen_active T).cursor_column) :=
    ⟨_, scroll_up_one_unfold m.term, rfl, rfl, rfl, rfl, rfl, rfl, rfl, rfl, rfl,
      scroll_up_region_one _ htb, scroll_up_region_frame _ 1⟩
  rw [hR, hT]
  simp only [screen_active_scroll_offset_zero]
  refine ⟨?_, ?_, ?_, ?_, ?_, ?_, ?_, ?_⟩
  · intro x hx
    refine Eq.trans (congrFun (congrFun (hframe.1.trans hsb)
      m.term.scrollback_head) x) ?_
    simp [hx]
  · exact hframe.2.1.trans hhd
  · exact hframe.2.2.1.trans hct
  · exact hframe.2.2.2.1.trans hAA
  · intro y col hcol hy1 hy2
    rw [← hsa, ← hcols]
    exact hone.1 y col (by rw [hcols]; exact hcol) (by rw [htop]; exact hy1)
      (by rw [hbot]; exact hy2)
  · intro col hcol
    rw [← hcols, ← hbot, ← hcolor]
    exact hone.2 col (by rw [hcols]; exact hcol)
  · exact hframe.2.2.2.2.1.trans (by rw [hsa]; exact hcur)
  · exact hframe.2.2.2.2.2.trans (by rw [hsa])

/-- Witness for C1 at a concrete machine: a fresh 2-by-2 terminal after one
newline sits at the bottom row in the normal state; the next newline bumps
the scrollback head from 0 to 1. -/
theorem C1_newline_at_bottom_witness :
    (ozterm_put_character (ozterm_feed (ozterm_create 2 2) [10]) 10).term.scrollback_head =
      ((ozterm_feed (ozterm_create 2 2) [10]).term.scrollback_head + 1) % SCROLLBACK_LINES ∧
    (ozterm_put_character (ozterm_feed (ozterm_create 2 2) [10]) 10).term.scrollback_count =
      (if (ozterm_feed (ozterm_create 2 2) [10]).term.scrollback_count < SCROLLBACK_LINES
       then (ozterm_feed (ozterm_create 2 2) [10]).term.scrollback_count + 1
       else (ozterm_feed (ozterm_create 2 2) [10]).term.scrollback_count) :=
  ⟨(C1_newline_at_bottom (ozterm_feed (ozterm_create 2 2) [10]) (by decide)
      (by decide) (by decide)).2.1,
   (C1_newline_at_bottom (ozterm_feed (ozterm_create 2 2) [10]) (by decide)
      (by decide) (by decide)).2.2.1⟩

/-- Counterexample to the claim's "iff the active screen is the main
screen": after `CSI ? 1049 h` switches to the alternate screen, two
newlines on a 2-by-2 terminal still append to the scrollback ring — the
alternate screen is active, yet `scrollback_count` is 1 where the claim
requires it to stay 0. -/
theorem C1_counterexample :
    (ozterm_feed (ozterm_create 2 2)
      [27, 91, 63, 49, 48, 52, 57, 104, 10, 10]).term.alternative_active = true ∧
    (ozterm_feed (ozterm_create 2 2)
      [27, 91, 63, 49, 48, 52, 57, 104, 10, 10]).term.scrollback_count = 1 := by
  refine ⟨by decide, by decide⟩
